import Mathlib

/-!
Shallow embedding of the `review_agent` static-analysis engine
(`review_agent/core/findings.py`, `review_agent/passes/{correctness,
security,performance,style}.py`, `review_agent/__main__.py`) and proofs
about it.  Python's `ast` module is the external syntax-tree provider;
its node shapes are embedded as inductive types below, and each pass's
`ast.NodeVisitor` subclass becomes a recursive traversal returning the
list of findings in emission order.  File reads are embedded as a
`FileAccess` value: the file is missing, unreadable (read raises an
uncaught exception such as `PermissionError`), or present with a parse
outcome.  Python exceptions that escape to the caller are `Except.error`.
-/

/-- Severity levels, from `findings.py` (`Severity` enum). -/
inductive Severity where
  | error
  | warning
  | info
  | hint
  deriving DecidableEq, BEq, Repr

/-- The order dict in `Severity.__lt__`: ERROR 0, WARNING 1, INFO 2, HINT 3
(ERROR is most severe and sorts first). -/
def Severity.rank : Severity → Nat
  | .error => 0
  | .warning => 1
  | .info => 2
  | .hint => 3

/-- The `Severity.__lt__` comparison used by `sorted`. -/
def Severity.pyLt (a b : Severity) : Bool := a.rank < b.rank

/-- Source location, from `findings.py` (`Location` dataclass).  `file` is the
path rendered as a string. -/
structure Location where
  file : String
  line : Nat
  column : Nat := 0
  end_line : Option Nat := none
  end_column : Option Nat := none
  deriving DecidableEq, Repr

/-- One code-review finding, from `findings.py` (`Finding` dataclass). -/
structure Finding where
  message : String
  severity : Severity
  location : Location
  rule_id : String
  category : String := "general"
  suggestion : Option String := none
  metadata : List (String × String) := []
  deriving DecidableEq, Repr

/-- State of a `FindingCollection` object: its `_findings` list, in insertion
order. -/
structure FindingCollection where
  findings : List Finding
  deriving DecidableEq, Repr

/-- Python methods mutate `self`; each method of `FindingCollection` is
embedded as a function from the receiver's state to the pair of the
receiver's state after the call and the method's return value. -/
def FindingCollection.add (c : FindingCollection) (f : Finding) :
    FindingCollection × Unit :=
  (⟨c.findings ++ [f]⟩, ())

/-- Method `extend`: appends `fs` to `self._findings`. -/
def FindingCollection.extend (c : FindingCollection) (fs : List Finding) :
    FindingCollection × Unit :=
  (⟨c.findings ++ fs⟩, ())

/-- Method `filter_by_severity`: builds a new collection from a list
comprehension over `self._findings`; the body never assigns to
`self._findings`, so the receiver state after the call is the state before. -/
def FindingCollection.filter_by_severity (c : FindingCollection)
    (severity : Severity) : FindingCollection × FindingCollection :=
  (c, ⟨c.findings.filter (fun f => f.severity == severity)⟩)

/-- Method `filter_by_file`. -/
def FindingCollection.filter_by_file (c : FindingCollection) (file : String) :
    FindingCollection × FindingCollection :=
  (c, ⟨c.findings.filter (fun f => f.location.file == file)⟩)

/-- Method `filter_by_category`. -/
def FindingCollection.filter_by_category (c : FindingCollection)
    (category : String) : FindingCollection × FindingCollection :=
  (c, ⟨c.findings.filter (fun f => f.category == category)⟩)

/-- Method `sorted_by_severity`: Python's `sorted` (a stable sort) keyed by
`f.severity` under `Severity.__lt__`; it copies, leaving `self` untouched. -/
def FindingCollection.sorted_by_severity (c : FindingCollection) :
    FindingCollection × List Finding :=
  (c, c.findings.mergeSort (fun a b => a.severity.rank ≤ b.severity.rank))

/-- Key comparison for `sorted_by_location`: Python tuple order on
`(str(f.location.file), f.location.line)`. -/
def locKeyLe (a b : Finding) : Bool :=
  a.location.file < b.location.file ||
    (a.location.file == b.location.file && a.location.line ≤ b.location.line)

/-- Method `sorted_by_location`: stable sort by `(str(file), line)`. -/
def FindingCollection.sorted_by_location (c : FindingCollection) :
    FindingCollection × List Finding :=
  (c, c.findings.mergeSort locKeyLe)

/-- Property `error_count`. -/
def FindingCollection.error_count (c : FindingCollection) : Nat :=
  (c.filter_by_severity Severity.error).2.findings.length

/-- Property `warning_count`. -/
def FindingCollection.warning_count (c : FindingCollection) : Nat :=
  (c.filter_by_severity Severity.warning).2.findings.length

/-!
Embedding of the Python `ast` node shapes the passes inspect.  Every
node records `lineno` and `col_offset` as the trailing two `Nat` fields.
The fragment below covers the node kinds the four checkers match on or
traverse through; annotations, `vararg`/`kwarg`, and node kinds no pass
distinguishes from generic traversal are omitted.
-/

/-- Literal constant values (`ast.Constant.value`).  Truthiness and the
`is True` identity test only need these shapes. -/
inductive Const where
  | noneV
  | boolV (b : Bool)
  | intV (n : Int)
  | strV (s : String)
  | ellipsisV
  deriving DecidableEq, Repr

/-- Python truthiness of a literal constant (used by `visit_Assert` in
`correctness.py` as `if node.test.value:`). -/
def Const.truthy : Const → Bool
  | .noneV => false
  | .boolV b => b
  | .intV n => n != 0
  | .strV s => s != ""
  | .ellipsisV => true

/-- Expression context (`ast.Load` / `ast.Store` / `ast.Del`). -/
inductive Ctx where
  | load
  | store
  | del
  deriving DecidableEq, Repr

/-- Unary operators (`ast.USub` is the one the passes match on). -/
inductive UnaryOpK where
  | usub
  | uadd
  | notK
  | invert
  deriving DecidableEq, Repr

/-- Binary operators (`ast.Add` and `ast.Mod` are matched on). -/
inductive BinOpK where
  | add
  | sub
  | mult
  | modK
  deriving DecidableEq, Repr

/-- Comparison operators (`ast.Eq`/`ast.NotEq`/`ast.In`/`ast.NotIn` are
matched on). -/
inductive CmpOpK where
  | eq
  | notEq
  | lt
  | ltE
  | gt
  | gtE
  | isK
  | isNotK
  | inK
  | notInK
  deriving DecidableEq, Repr

/-- A function parameter (`ast.arg`); its annotation is not modelled since
no pass inspects or traverses annotations for findings. -/
structure PArg where
  arg : String
  line : Nat
  col : Nat
  deriving DecidableEq, Repr

/-- An import alias (`ast.alias`): `name`, optional `asname`. -/
structure ImpAlias where
  name : String
  asname : Option String
  deriving DecidableEq, Repr

mutual

/-- Python expressions (`ast.expr`).  The last two `Nat` fields of every
constructor are `lineno` and `col_offset`. -/
inductive Expr where
  | name (id : String) (ctx : Ctx) (line col : Nat)
  | constE (c : Const) (line col : Nat)
  | call (func : Expr) (args : List Expr) (keywords : List Kw) (line col : Nat)
  | attrE (value : Expr) (attrName : String) (line col : Nat)
  | unary (op : UnaryOpK) (operand : Expr) (line col : Nat)
  | binOp (left : Expr) (op : BinOpK) (right : Expr) (line col : Nat)
  | compare (left : Expr) (ops : List CmpOpK) (comparators : List Expr) (line col : Nat)
  | listE (elts : List Expr) (line col : Nat)
  | tupleE (elts : List Expr) (line col : Nat)
  | dictE (keys : List (Option Expr)) (values : List Expr) (line col : Nat)
  | setE (elts : List Expr) (line col : Nat)
  | subscript (value : Expr) (slice : Expr) (line col : Nat)
  | joinedStr (values : List Expr) (line col : Nat)
  | formattedValue (value : Expr) (line col : Nat)
  deriving Repr

/-- A keyword argument at a call site (`ast.keyword`); `arg` is `none` for
a `**kwargs` spread. -/
inductive Kw where
  | mk (arg : Option String) (value : Expr)
  deriving Repr

/-- The `ast.arguments` record of a function definition, restricted to the
fields the passes use: positional-only/positional/keyword-only parameter
lists, `defaults`, and `kw_defaults` (whose entries may be `None`). -/
inductive FArgs where
  | mk (posonlyargs args kwonlyargs : List PArg)
       (defaults : List Expr) (kw_defaults : List (Option Expr))
  deriving Repr

/-- Python statements (`ast.stmt`).  The last two `Nat` fields of every
constructor are `lineno` and `col_offset`. -/
inductive Stmt where
  | funcDef (nm : String) (fargs : FArgs) (body : List Stmt)
      (decorators : List Expr) (line col : Nat)
  | asyncFuncDef (nm : String) (fargs : FArgs) (body : List Stmt)
      (decorators : List Expr) (line col : Nat)
  | classDef (nm : String) (bases : List Expr) (body : List Stmt)
      (decorators : List Expr) (line col : Nat)
  | ret (value : Option Expr) (line col : Nat)
  | assign (targets : List Expr) (value : Expr) (line col : Nat)
  | annAssign (target : Expr) (ann : Expr) (value : Option Expr) (line col : Nat)
  | augAssign (target : Expr) (op : BinOpK) (value : Expr) (line col : Nat)
  | forS (target : Expr) (iter : Expr) (body orelse : List Stmt) (line col : Nat)
  | whileS (test : Expr) (body orelse : List Stmt) (line col : Nat)
  | ifS (test : Expr) (body orelse : List Stmt) (line col : Nat)
  | tryS (body : List Stmt) (handlers : List Handler)
      (orelse finalBody : List Stmt) (line col : Nat)
  | raiseS (exc : Option Expr) (line col : Nat)
  | assertS (test : Expr) (msg : Option Expr) (line col : Nat)
  | importS (names : List ImpAlias) (line col : Nat)
  | importFrom (module : Option String) (names : List ImpAlias) (line col : Nat)
  | exprS (value : Expr) (line col : Nat)
  | passS (line col : Nat)
  | breakS (line col : Nat)
  | continueS (line col : Nat)
  deriving Repr

/-- An exception handler (`ast.ExceptHandler`): optional exception type
expression and a body. -/
inductive Handler where
  | mk (type : Option Expr) (body : List Stmt) (line col : Nat)
  deriving Repr

end

/-- A parsed module body (`ast.Module.body`).  Named `PyModule` because
`Module` is taken by the ambient mathematics library. -/
def PyModule := List Stmt

/-- Statement `lineno` accessor. -/
def Stmt.lineNo : Stmt → Nat
  | .funcDef _ _ _ _ l _ => l
  | .asyncFuncDef _ _ _ _ l _ => l
  | .classDef _ _ _ _ l _ => l
  | .ret _ l _ => l
  | .assign _ _ l _ => l
  | .annAssign _ _ _ l _ => l
  | .augAssign _ _ _ l _ => l
  | .forS _ _ _ _ l _ => l
  | .whileS _ _ _ l _ => l
  | .ifS _ _ _ l _ => l
  | .tryS _ _ _ _ l _ => l
  | .raiseS _ l _ => l
  | .assertS _ _ l _ => l
  | .importS _ l _ => l
  | .importFrom _ _ l _ => l
  | .exprS _ l _ => l
  | .passS l _ => l
  | .breakS l _ => l
  | .continueS l _ => l

/-- Statement `col_offset` accessor. -/
def Stmt.colOff : Stmt → Nat
  | .funcDef _ _ _ _ _ c => c
  | .asyncFuncDef _ _ _ _ _ c => c
  | .classDef _ _ _ _ _ c => c
  | .ret _ _ c => c
  | .assign _ _ _ c => c
  | .annAssign _ _ _ _ c => c
  | .augAssign _ _ _ _ c => c
  | .forS _ _ _ _ _ c => c
  | .whileS _ _ _ _ c => c
  | .ifS _ _ _ _ c => c
  | .tryS _ _ _ _ _ c => c
  | .raiseS _ _ c => c
  | .assertS _ _ _ c => c
  | .importS _ _ c => c
  | .importFrom _ _ _ c => c
  | .exprS _ _ c => c
  | .passS _ c => c
  | .breakS _ c => c
  | .continueS _ c => c

/-- Outcome of `ast.parse(source)`: a module body, or a `SyntaxError`
carrying `msg`, `lineno` and `offset` (either of which may be `None`). -/
inductive ParseOutcome where
  | parsed (body : List Stmt)
  | syntaxError (msg : String) (lineno offset : Option Nat)

/-- Contents of a successfully read file: its raw lines as produced by
`source.splitlines(keepends=True)` (each line keeps its terminator), and
the outcome of `ast.parse(source)`. -/
structure FileContent where
  lines : List String
  parse : ParseOutcome

/-- Result of `file_path.read_text(encoding="utf-8")`: the file is found,
missing (`FileNotFoundError`), or present but unreadable (the read raises
some other `OSError` subclass such as `PermissionError`, or a decode
error — none of which the passes catch). -/
inductive FileAccess where
  | found (content : FileContent)
  | notFound
  | unreadable

/-- A Python exception escaping to the caller: the uncaught read error, or a
`KeyError` from a dict lookup (`PASSES[name]` in `__main__.py`). -/
inductive PyExc where
  | readError
  | keyError (key : String)

/-- Python's `x or d` for an optional integer `x` (used for
`e.lineno or 1`): `None` and `0` are both falsy and give `d`. -/
def pyOrNat (x : Option Nat) (d : Nat) : Nat :=
  match x with
  | some n => if n = 0 then d else n
  | none => d

/-!
Character-wise embeddings of the Python string operations the passes use
(`lower`, `split(sep)`, `startswith`, `endswith`).  They work on the
character list underlying the string; for the ASCII text the rules
handle, these agree with Python's semantics.
-/

/-- Python `str.lower()` (ASCII case mapping). -/
def pyLower (s : String) : String := ⟨s.data.map Char.toLower⟩

/-- Python `str.split(sep)` for a one-character separator, on character
lists: splitting the empty text gives one empty part, and separators at
the edges produce empty parts. -/
def charSplit (sep : Char) : List Char → List (List Char)
  | [] => [[]]
  | c :: cs =>
    if c == sep then [] :: charSplit sep cs
    else
      match charSplit sep cs with
      | [] => [[c]]
      | p :: ps => (c :: p) :: ps

/-- Python `s.split(sep)` for a one-character separator. -/
def pySplit (s : String) (sep : Char) : List String :=
  (charSplit sep s.data).map (fun l => ⟨l⟩)

/-- Python `s.startswith(pre)`. -/
def pyStartsWith (s pre : String) : Bool := pre.data.isPrefixOf s.data

/-- Python `s.endswith(post)`. -/
def pyEndsWith (s post : String) : Bool := post.data.isSuffixOf s.data

/-!
CorrectnessPass (`passes/correctness.py`).  The `defined_names` /
`imported_names` / `used_names` sets of `_CorrectnessChecker` are written
by `visit_Import` / `visit_ImportFrom` but never read by any rule, so the
embedding omits that dead state; those visitors contribute only their
`generic_visit`, and alias nodes have no expression children.
-/

/-- The `_add_finding` helper of `_CorrectnessChecker`. -/
def corFinding (path msg : String) (sev : Severity) (line col : Nat)
    (rule : String) (sugg : Option String) : Finding :=
  { message := msg, severity := sev,
    location := { file := path, line := line, column := col },
    rule_id := rule, category := "correctness", suggestion := sugg }

/-- Tests whether an expression is the `None` literal (`ast.Constant` with
value `None`). -/
def isNoneConst : Expr → Bool
  | .constE .noneV _ _ => true
  | _ => false

/-- Rendering of the comparison operator in COR002 messages (`op_text`). -/
def cmpOpText (op : CmpOpK) : String :=
  if op = CmpOpK.eq then "==" else "!="

/-- Rendering of the suggested identity operator in COR002 messages
(`is_text`). -/
def cmpIsText (op : CmpOpK) : String :=
  if op = CmpOpK.eq then "is" else "is not"

/-- The loop of `visit_Compare`: walks `zip(node.ops, node.comparators)`
carrying the left operand of each position (`node.left` first, then the
previous comparator), emitting COR002 when an `==`/`!=` touches a `None`
literal on either side.  `line`/`col` are the `Compare` node's position. -/
def corCompareScan (path : String) (line col : Nat) :
    Expr → List CmpOpK → List Expr → List Finding
  | _, [], _ => []
  | _, _ :: _, [] => []
  | prev, op :: ops, c :: cs =>
    (if op = CmpOpK.eq ∨ op = CmpOpK.notEq then
      (if isNoneConst c then
        [corFinding path
          ("Comparison to None should use '" ++ cmpIsText op ++
            "' instead of '" ++ cmpOpText op ++ "'")
          Severity.warning line col "COR002"
          (some ("Use '" ++ cmpIsText op ++ " None' instead of '" ++
            cmpOpText op ++ " None'"))]
      else if isNoneConst prev then
        [corFinding path
          ("Comparison to None should use '" ++ cmpIsText op ++
            "' instead of '" ++ cmpOpText op ++ "'")
          Severity.warning line col "COR002"
          (some ("Use 'None " ++ cmpIsText op ++ "' instead of 'None " ++
            cmpOpText op ++ "'"))]
      else [])
    else []) ++ corCompareScan path line col c ops cs

/-- COR003 (`_check_mutable_defaults`): iterates
`node.args.defaults + node.args.kw_defaults` (entries of the latter may be
`None`) and reports each list/dict/set literal default at the default
expression's own position. -/
def mutableDefaultFindings (path : String) : List (Option Expr) → List Finding
  | [] => []
  | none :: rest => mutableDefaultFindings path rest
  | some d :: rest =>
    (match d with
     | .listE _ l c =>
       [corFinding path "Mutable default argument: list" Severity.warning l c
         "COR003" (some "Use None as default and create the mutable object inside the function")]
     | .dictE _ _ l c =>
       [corFinding path "Mutable default argument: dict" Severity.warning l c
         "COR003" (some "Use None as default and create the mutable object inside the function")]
     | .setE _ l c =>
       [corFinding path "Mutable default argument: set" Severity.warning l c
         "COR003" (some "Use None as default and create the mutable object inside the function")]
     | _ => []) ++ mutableDefaultFindings path rest

/-- The defaults sequence `node.args.defaults + node.args.kw_defaults` that
`_check_mutable_defaults` loops over. -/
def FArgs.defaultSeq : FArgs → List (Option Expr)
  | .mk _ _ _ defaults kwDefaults => defaults.map some ++ kwDefaults

/-- Whether a statement is one of `ast.Return`, `ast.Raise`, `ast.Break`,
`ast.Continue` (the terminators `_check_unreachable_code` looks for). -/
def isTerminator : Stmt → Bool
  | .ret _ _ _ => true
  | .raiseS _ _ _ => true
  | .breakS _ _ => true
  | .continueS _ _ => true
  | _ => false

/-- COR004 (`_check_unreachable_code`): scans a statement list for the first
terminator; if a statement follows it in the same list, reports that
statement, and in every case stops scanning (`break`). -/
def checkUnreachableCode (path : String) : List Stmt → List Finding
  | [] => []
  | s :: rest =>
    if isTerminator s then
      match rest with
      | [] => []
      | nxt :: _ =>
        [corFinding path "Unreachable code detected" Severity.warning
          nxt.lineNo nxt.colOff "COR004" (some "Remove or move the unreachable code")]
    else checkUnreachableCode path rest

/-- COR005 check of `visit_ExceptHandler`: a handler with no exception type. -/
def bareExceptFindings (path : String) (type : Option Expr) (line col : Nat) :
    List Finding :=
  match type with
  | none =>
    [corFinding path
      "Bare 'except:' clause catches all exceptions including KeyboardInterrupt"
      Severity.warning line col "COR005"
      (some "Use 'except Exception:' to catch most exceptions, or be more specific")]
  | some _ => []

/-- COR006/COR007 check of `visit_Assert`: a literal-constant condition is
always-true (INFO) or always-false (WARNING). -/
def assertConstFindings (path : String) (test : Expr) (line col : Nat) :
    List Finding :=
  match test with
  | .constE c _ _ =>
    if c.truthy then
      [corFinding path "Assertion is always true" Severity.info line col
        "COR006" (some "Remove the assertion or fix the condition")]
    else
      [corFinding path "Assertion is always false" Severity.warning line col
        "COR007" (some "This will always raise AssertionError - is this intentional?")]
  | _ => []

mutual

/-- The `_CorrectnessChecker` traversal over one statement: rule checks of
the overridden `visit_*` methods followed by `generic_visit` over the
node's children in `ast` field order. -/
def corStmt (path : String) : Stmt → List Finding
  | .funcDef _ fargs body dec _ _ =>
    mutableDefaultFindings path fargs.defaultSeq ++
      checkUnreachableCode path body ++
      corFArgs path fargs ++ corStmts path body ++ corExprs path dec
  | .asyncFuncDef _ fargs body dec _ _ =>
    mutableDefaultFindings path fargs.defaultSeq ++
      checkUnreachableCode path body ++
      corFArgs path fargs ++ corStmts path body ++ corExprs path dec
  | .classDef _ bases body dec _ _ =>
    corExprs path bases ++ corStmts path body ++ corExprs path dec
  | .ret v _ _ => corOptExpr path v
  | .assign targets value _ _ => corExprs path targets ++ corExpr path value
  | .annAssign t ann v _ _ =>
    corExpr path t ++ corExpr path ann ++ corOptExpr path v
  | .augAssign t _ v _ _ => corExpr path t ++ corExpr path v
  | .forS t it body orelse _ _ =>
    corExpr path t ++ corExpr path it ++ corStmts path body ++ corStmts path orelse
  | .whileS test body orelse _ _ =>
    corExpr path test ++ corStmts path body ++ corStmts path orelse
  | .ifS test body orelse _ _ =>
    corExpr path test ++ corStmts path body ++ corStmts path orelse
  | .tryS body handlers orelse finalBody _ _ =>
    corStmts path body ++ corHandlers path handlers ++
      corStmts path orelse ++ corStmts path finalBody
  | .raiseS e _ _ => corOptExpr path e
  | .assertS test msg line col =>
    assertConstFindings path test line col ++
      corExpr path test ++ corOptExpr path msg
  | .importS _ _ _ => []
  | .importFrom _ _ _ _ => []
  | .exprS v _ _ => corExpr path v
  | .passS _ _ => []
  | .breakS _ _ => []
  | .continueS _ _ => []

/-- Traversal over a statement list in document order. -/
def corStmts (path : String) : List Stmt → List Finding
  | [] => []
  | s :: ss => corStmt path s ++ corStmts path ss

/-- Traversal over the children of an `ast.arguments` node: the parameter
nodes have no modelled children; `kw_defaults` precedes `defaults` in
`ast.arguments._fields`. -/
def corFArgs (path : String) : FArgs → List Finding
  | .mk _ _ _ defaults kwDefaults =>
    corOptExprs path kwDefaults ++ corExprs path defaults

/-- Traversal over exception handlers: the COR005 check of
`visit_ExceptHandler`, then the handler's children. -/
def corHandlers (path : String) : List Handler → List Finding
  | [] => []
  | .mk type body line col :: hs =>
    bareExceptFindings path type line col ++ corOptExpr path type ++
      corStmts path body ++ corHandlers path hs

/-- The `_CorrectnessChecker` traversal over one expression. -/
def corExpr (path : String) : Expr → List Finding
  | .name _ _ _ _ => []
  | .constE _ _ _ => []
  | .call f args kws _ _ =>
    corExpr path f ++ corExprs path args ++ corKws path kws
  | .attrE v _ _ _ => corExpr path v
  | .unary _ o _ _ => corExpr path o
  | .binOp l _ r _ _ => corExpr path l ++ corExpr path r
  | .compare left ops comps line col =>
    corCompareScan path line col left ops comps ++
      corExpr path left ++ corExprs path comps
  | .listE elts _ _ => corExprs path elts
  | .tupleE elts _ _ => corExprs path elts
  | .dictE keys values _ _ => corOptExprs path keys ++ corExprs path values
  | .setE elts _ _ => corExprs path elts
  | .subscript v s _ _ => corExpr path v ++ corExpr path s
  | .joinedStr vs _ _ => corExprs path vs
  | .formattedValue v _ _ => corExpr path v

/-- Traversal over an expression list. -/
def corExprs (path : String) : List Expr → List Finding
  | [] => []
  | e :: es => corExpr path e ++ corExprs path es

/-- Traversal over an optional expression. -/
def corOptExpr (path : String) : Option Expr → List Finding
  | none => []
  | some e => corExpr path e

/-- Traversal over a list of optional expressions. -/
def corOptExprs (path : String) : List (Option Expr) → List Finding
  | [] => []
  | e :: es => corOptExpr path e ++ corOptExprs path es

/-- Traversal over call keywords (`ast.keyword` children). -/
def corKws (path : String) : List Kw → List Finding
  | [] => []
  | .mk _ v :: ks => corExpr path v ++ corKws path ks

end

/-- `CorrectnessPass.analyze`: reads and parses the file, converting a
missing file to a single COR000 ERROR finding and a `SyntaxError` to a
single COR001 ERROR finding; other read failures are not caught and
escape to the caller.  On a successful parse the checker traverses the
tree once. -/
def CorrectnessPass.analyze (path : String) (fa : FileAccess) :
    Except PyExc FindingCollection :=
  match fa with
  | .notFound =>
    .ok ⟨[{ message := "File not found: " ++ path, severity := Severity.error,
            location := { file := path, line := 1, column := 0 },
            rule_id := "COR000", category := "correctness" }]⟩
  | .unreadable => .error PyExc.readError
  | .found content =>
    match content.parse with
    | .syntaxError msg lineno offset =>
      .ok ⟨[{ message := "Syntax error: " ++ msg, severity := Severity.error,
              location := { file := path, line := pyOrNat lineno 1,
                            column := offset.getD 0 },
              rule_id := "COR001", category := "correctness" }]⟩
    | .parsed body => .ok ⟨corStmts path body⟩

/-!
SecurityPass (`passes/security.py`).  The checker keeps one per-file
mutable dict `_import_aliases` mapping a locally bound name to a dotted
module path; statements are visited in document order and the map threads
through the traversal.  The `source` / `source_lines` fields stored on
`_SecurityChecker` are never read and are omitted.
-/

/-- The `_import_aliases` dict.  Insertion prepends, lookup takes the most
recent binding, matching dict overwrite semantics for the operations used
(`__setitem__` and `get`). -/
def AliasMap := List (String × String)

/-- Dict lookup `self._import_aliases.get(k)`. -/
def aliasGet (m : AliasMap) (k : String) : Option String :=
  (m.find? (fun p => p.1 == k)).map (fun p => p.2)

/-- Dict lookup with default, `self._import_aliases.get(module, module)`. -/
def aliasResolve (m : AliasMap) (k : String) : String :=
  (aliasGet m k).getD k

/-- Dict store `self._import_aliases[k] = v`. -/
def aliasInsert (m : AliasMap) (k v : String) : AliasMap :=
  (k, v) :: m

/-- `visit_Import`: binds `alias.asname if alias.asname else alias.name`
to `alias.name` for each alias, in order. -/
def secImport (m : AliasMap) : List ImpAlias → AliasMap
  | [] => m
  | a :: rest => secImport (aliasInsert m (a.asname.getD a.name) a.name) rest

/-- `visit_ImportFrom`: binds each local name to
`f"{node.module or ''}.{alias.name}"`. -/
def secImportFrom (m : AliasMap) (module : Option String) :
    List ImpAlias → AliasMap
  | [] => m
  | a :: rest =>
    secImportFrom (aliasInsert m (a.asname.getD a.name)
      (module.getD "" ++ "." ++ a.name)) module rest

/-- `_resolve_call_name`: `Attribute` over a bare `Name` gives
`"{value.id}.{attr}"`, a bare `Name` gives its id, anything else `None`. -/
def resolveCallName : Expr → Option String
  | .attrE (.name vid _ _ _) attrName _ _ => some (vid ++ "." ++ attrName)
  | .name nid _ _ _ => some nid
  | _ => none

/-- Keyword argument name accessor. -/
def Kw.argName : Kw → Option String
  | .mk a _ => a

/-- Keyword argument value accessor. -/
def Kw.value : Kw → Expr
  | .mk _ v => v

/-- The `_add_finding` helper of `_SecurityChecker`. -/
def secFinding (path msg : String) (sev : Severity) (line col : Nat)
    (rule : String) (sugg : Option String) : Finding :=
  { message := msg, severity := sev,
    location := { file := path, line := line, column := col },
    rule_id := rule, category := "security", suggestion := sugg }

/-- The `_DANGEROUS_CALLS` table. -/
def dangerousCalls : List (String × String) :=
  [("eval", "SEC001"), ("exec", "SEC002")]

/-- `_check_dangerous_builtins`: a call whose func is a bare `Name` found in
`_DANGEROUS_CALLS`. -/
def checkDangerousBuiltins (path : String) (func : Expr) (line col : Nat) :
    List Finding :=
  match func with
  | .name fid _ _ _ =>
    match dangerousCalls.lookup fid with
    | none => []
    | some rule =>
      [secFinding path
        ("Use of " ++ fid ++ "() is a security risk — allows arbitrary code execution")
        Severity.error line col rule
        (some ("Avoid " ++ fid ++ "(). Use ast.literal_eval() for safe parsing or a dedicated parser"))]
  | _ => []

/-- The subprocess functions checked by `_check_subprocess_shell`. -/
def subprocessFns : List String :=
  ["run", "call", "check_call", "check_output", "Popen"]

/-- `_check_subprocess_shell`: a two-part dotted call whose module resolves
to `subprocess`, one of the known functions, with a `shell=True` literal
keyword; the keyword loop has no early exit, so each matching keyword
emits a finding. -/
def checkSubprocessShell (path : String) (aliases : AliasMap) (func : Expr)
    (kws : List Kw) (line col : Nat) : List Finding :=
  match resolveCallName func with
  | none => []
  | some fn =>
    match pySplit fn '.' with
    | [module, attr] =>
      if aliasResolve aliases module != "subprocess" then []
      else if !(subprocessFns.contains attr) then []
      else kws.flatMap (fun k =>
        if k.argName == some "shell" then
          match k.value with
          | .constE (.boolV true) _ _ =>
            [secFinding path ("subprocess." ++ attr ++ "() called with shell=True")
              Severity.warning line col "SEC004"
              (some "Avoid shell=True. Pass arguments as a list to prevent shell injection")]
          | _ => []
        else [])
    | _ => []

/-- The `_DANGEROUS_MODULE_CALLS` table: `(module, function)` to
`(rule_id, message)`. -/
def dangerousModuleCalls : List ((String × String) × (String × String)) :=
  [(("os", "system"), ("SEC005", "Use of os.system() allows shell injection")),
   (("os", "popen"), ("SEC005", "Use of os.popen() allows shell injection")),
   (("pickle", "loads"), ("SEC006", "Deserializing untrusted data with pickle can execute arbitrary code")),
   (("pickle", "load"), ("SEC006", "Deserializing untrusted data with pickle can execute arbitrary code")),
   (("marshal", "loads"), ("SEC006", "Deserializing untrusted data with marshal can execute arbitrary code")),
   (("shelve", "open"), ("SEC006", "shelve uses pickle internally — untrusted data risk")),
   (("yaml", "load"), ("SEC009", "yaml.load() without SafeLoader can execute arbitrary code"))]

/-- `_check_dangerous_module_calls`: resolves the receiver through the alias
map and matches `(resolved_module, attr)` against the table; a resolved
`yaml.load` is exempt when a `Loader` keyword or a second positional
argument is present. -/
def checkDangerousModuleCalls (path : String) (aliases : AliasMap)
    (func : Expr) (args : List Expr) (kws : List Kw) (line col : Nat) :
    List Finding :=
  match resolveCallName func with
  | none => []
  | some fn =>
    match pySplit fn '.' with
    | [module, attr] =>
      let key := (aliasResolve aliases module, attr)
      match dangerousModuleCalls.lookup key with
      | none => []
      | some (rule, msg) =>
        if key == ("yaml", "load") &&
            (kws.any (fun k => k.argName == some "Loader") || args.length ≥ 2) then
          []
        else
          [secFinding path msg Severity.warning line col rule
            (some "See https://owasp.org for secure alternatives")]
    | _ => []

/-- `_check_dynamic_import`: a call to the `__import__` builtin. -/
def checkDynamicImport (path : String) (func : Expr) (line col : Nat) :
    List Finding :=
  match func with
  | .name fid _ _ _ =>
    if fid == "__import__" then
      [secFinding path "Use of __import__() enables dynamic code loading"
        Severity.info line col "SEC007"
        (some "Use importlib.import_module() for clearer intent, or static imports where possible")]
    else []
  | _ => []

/-- The `_WEAK_HASHES` set. -/
def weakHashes : List String := ["md5", "sha1"]

/-- `_check_weak_hashing`: `hashlib.md5` / `hashlib.sha1` calls, and
`hashlib.new` with a weak-algorithm string literal first argument
(lower-cased before the membership test). -/
def checkWeakHashing (path : String) (aliases : AliasMap) (func : Expr)
    (args : List Expr) (line col : Nat) : List Finding :=
  match resolveCallName func with
  | none => []
  | some fn =>
    match pySplit fn '.' with
    | [module, attr] =>
      let resolved := aliasResolve aliases module
      (if resolved == "hashlib" && weakHashes.contains attr then
        [secFinding path ("Use of weak hash algorithm: hashlib." ++ attr ++ "()")
          Severity.warning line col "SEC008"
          (some "Use hashlib.sha256() or stronger. MD5/SHA1 are broken for security purposes")]
      else []) ++
      (if resolved == "hashlib" && attr == "new" then
        match args with
        | .constE (.strV s) _ _ :: _ =>
          if weakHashes.contains (pyLower s) then
            [secFinding path ("Use of weak hash algorithm: hashlib.new('" ++ s ++ "')")
              Severity.warning line col "SEC008"
              (some "Use 'sha256' or stronger. MD5/SHA1 are broken for security purposes")]
          else []
        | _ => []
      else [])
    | _ => []

/-- The word list of `_SECRET_NAME_PATTERN`. -/
def secretWords : List String :=
  ["password", "passwd", "secret", "api_key", "apikey", "token", "auth",
   "credential", "private_key"]

/-- `_SECRET_NAME_PATTERN.search(name)`: the pattern is a case-insensitive
alternation of the literal words above, so it matches somewhere in `name`
iff some word occurs as a substring of the lower-cased name. -/
def secretNameSearch (name : String) : Bool :=
  secretWords.any (fun w => decide (w.data <:+: (pyLower name).data))

/-- `_check_hardcoded_secret`: a secret-looking target name assigned a
non-empty string-literal constant, reported at the assignment's position. -/
def checkHardcodedSecret (path name : String) (value : Expr) (line col : Nat) :
    List Finding :=
  if !(secretNameSearch name) then []
  else
    match value with
    | .constE (.strV s) _ _ =>
      if s != "" then
        [secFinding path ("Possible hardcoded secret in variable '" ++ name ++ "'")
          Severity.warning line col "SEC003"
          (some "Use environment variables or a secrets manager instead of hardcoded values")]
      else []
    | _ => []

/-- The `visit_Assign` loop: `_check_hardcoded_secret` for each target that
is a bare `Name`, at the assignment's `lineno`/`col_offset`. -/
def assignSecretFindings (path : String) (targets : List Expr) (value : Expr)
    (line col : Nat) : List Finding :=
  targets.flatMap (fun t =>
    match t with
    | .name tid _ _ _ => checkHardcodedSecret path tid value line col
    | _ => [])

/-- The SQL keyword list of `_SQL_KEYWORD_PATTERN`. -/
def sqlKeywords : List String :=
  ["SELECT", "INSERT", "UPDATE", "DELETE", "DROP", "CREATE", "ALTER", "EXEC"]

/-- A regex word character (`\w`, ASCII): letter, digit or underscore. -/
def isWordChar (c : Char) : Bool := c.isAlphanum || c == '_'

/-- Case-insensitive match of a keyword at the head of `text`; returns the
remaining text after the keyword on success. -/
def kwMatchAt : List Char → List Char → Option (List Char)
  | rest, [] => some rest
  | c :: cs, k :: ks => if c.toUpper == k then kwMatchAt cs ks else none
  | [], _ :: _ => none

/-- The `\b` boundary after a matched keyword: end of text or a non-word
character. -/
def boundaryAfter : List Char → Bool
  | [] => true
  | c :: _ => !(isWordChar c)

/-- Scan of `_SQL_KEYWORD_PATTERN.search`: at each position whose preceding
character (if any) is not a word character, try every keyword
case-insensitively and require a word boundary after it. -/
def sqlScan : Option Char → List Char → Bool
  | _, [] => false
  | prev, c :: cs =>
    ((match prev with | none => true | some p => !(isWordChar p)) &&
      sqlKeywords.any (fun kw =>
        match kwMatchAt (c :: cs) kw.data with
        | some rest => boundaryAfter rest
        | none => false)) ||
    sqlScan (some c) cs

/-- `_SQL_KEYWORD_PATTERN.search(text)` as a boolean. -/
def sqlKeywordSearch (s : String) : Bool := sqlScan none s.data

/-- `_check_sql_pattern`: SEC010 when the text contains a SQL keyword at
word boundaries. -/
def checkSqlPattern (path text : String) (line col : Nat) : List Finding :=
  if sqlKeywordSearch text then
    [secFinding path "Possible SQL injection — query built with string formatting"
      Severity.warning line col "SEC010"
      (some "Use parameterized queries (e.g., cursor.execute('SELECT * FROM t WHERE id=?', (id,)))")]
  else []

/-- Python's `str.strip()` whitespace set (ASCII). -/
def pyIsSpace (c : Char) : Bool :=
  c == ' ' || c == '\t' || c == '\n' || c == '\r' || c == '\x0b' || c == '\x0c'

/-- Python's `str.strip()`. -/
def pyStrip (s : String) : String :=
  ⟨((s.data.dropWhile pyIsSpace).reverse.dropWhile pyIsSpace).reverse⟩

/-- `_check_sql_fstring`: collects the string-literal parts of a
`JoinedStr`; if any other part is present (an interpolation), joins the
literal parts with spaces, strips, and runs the SQL pattern check. -/
def checkSqlFstring (path : String) (values : List Expr) (line col : Nat) :
    List Finding :=
  let stringParts := values.filterMap (fun v =>
    match v with
    | .constE (.strV s) _ _ => some s
    | _ => none)
  let hasInterpolation := values.any (fun v =>
    match v with
    | .constE (.strV _) _ _ => false
    | _ => true)
  if hasInterpolation then
    checkSqlPattern path (pyStrip (String.intercalate " " stringParts)) line col
  else []

/-- The SEC011 finding of `visit_Assert` (unconditional). -/
def secAssertFinding (path : String) (line col : Nat) : Finding :=
  secFinding path
    "assert statements are removed when Python runs with -O (optimized mode)"
    Severity.info line col "SEC011"
    (some "Use explicit if/raise for security checks — assert is for debugging only")

/-- The five checks `visit_Call` runs, in order. -/
def secCallChecks (path : String) (aliases : AliasMap) (func : Expr)
    (args : List Expr) (kws : List Kw) (line col : Nat) : List Finding :=
  checkDangerousBuiltins path func line col ++
    checkSubprocessShell path aliases func kws line col ++
    checkDangerousModuleCalls path aliases func args kws line col ++
    checkDynamicImport path func line col ++
    checkWeakHashing path aliases func args line col

mutual

/-- The `_SecurityChecker` traversal over one statement, threading the
alias map in document order (an alias is resolved using whatever imports
have been seen so far). -/
def secStmt (path : String) (m : AliasMap) : Stmt → AliasMap × List Finding
  | .importS names _ _ => (secImport m names, [])
  | .importFrom module names _ _ => (secImportFrom m module names, [])
  | .funcDef _ fargs body dec _ _ =>
    let f1 := secFArgs path m fargs
    let r2 := secStmts path m body
    (r2.1, f1 ++ r2.2 ++ secExprs path r2.1 dec)
  | .asyncFuncDef _ fargs body dec _ _ =>
    let f1 := secFArgs path m fargs
    let r2 := secStmts path m body
    (r2.1, f1 ++ r2.2 ++ secExprs path r2.1 dec)
  | .classDef _ bases body dec _ _ =>
    let f1 := secExprs path m bases
    let r2 := secStmts path m body
    (r2.1, f1 ++ r2.2 ++ secExprs path r2.1 dec)
  | .ret v _ _ => (m, secOptExpr path m v)
  | .assign targets value line col =>
    (m, assignSecretFindings path targets value line col ++
      secExprs path m targets ++ secExpr path m value)
  | .annAssign t ann v line col =>
    let sf := match t, v with
      | .name tid _ _ _, some vv => checkHardcodedSecret path tid vv line col
      | _, _ => []
    (m, sf ++ secExpr path m t ++ secExpr path m ann ++ secOptExpr path m v)
  | .augAssign t _ v _ _ => (m, secExpr path m t ++ secExpr path m v)
  | .forS t it body orelse _ _ =>
    let f1 := secExpr path m t ++ secExpr path m it
    let r2 := secStmts path m body
    let r3 := secStmts path r2.1 orelse
    (r3.1, f1 ++ r2.2 ++ r3.2)
  | .whileS test body orelse _ _ =>
    let f1 := secExpr path m test
    let r2 := secStmts path m body
    let r3 := secStmts path r2.1 orelse
    (r3.1, f1 ++ r2.2 ++ r3.2)
  | .ifS test body orelse _ _ =>
    let f1 := secExpr path m test
    let r2 := secStmts path m body
    let r3 := secStmts path r2.1 orelse
    (r3.1, f1 ++ r2.2 ++ r3.2)
  | .tryS body handlers orelse finalBody _ _ =>
    let r1 := secStmts path m body
    let r2 := secHandlers path r1.1 handlers
    let r3 := secStmts path r2.1 orelse
    let r4 := secStmts path r3.1 finalBody
    (r4.1, r1.2 ++ r2.2 ++ r3.2 ++ r4.2)
  | .raiseS e _ _ => (m, secOptExpr path m e)
  | .assertS test msg line col =>
    (m, [secAssertFinding path line col] ++
      secExpr path m test ++ secOptExpr path m msg)
  | .exprS v _ _ => (m, secExpr path m v)
  | .passS _ _ => (m, [])
  | .breakS _ _ => (m, [])
  | .continueS _ _ => (m, [])

/-- Traversal over a statement list, threading the alias map. -/
def secStmts (path : String) (m : AliasMap) : List Stmt → AliasMap × List Finding
  | [] => (m, [])
  | s :: ss =>
    let r1 := secStmt path m s
    let r2 := secStmts path r1.1 ss
    (r2.1, r1.2 ++ r2.2)

/-- Traversal over exception handlers (no security visitor; generic
children are the type expression and the body). -/
def secHandlers (path : String) (m : AliasMap) :
    List Handler → AliasMap × List Finding
  | [] => (m, [])
  | .mk type body _ _ :: hs =>
    let f1 := secOptExpr path m type
    let r2 := secStmts path m body
    let r3 := secHandlers path r2.1 hs
    (r3.1, f1 ++ r2.2 ++ r3.2)

/-- The `_SecurityChecker` traversal over one expression (expressions
cannot contain import statements, so they do not change the alias map). -/
def secExpr (path : String) (m : AliasMap) : Expr → List Finding
  | .name _ _ _ _ => []
  | .constE _ _ _ => []
  | .call f args kws line col =>
    secCallChecks path m f args kws line col ++
      secExpr path m f ++ secExprs path m args ++ secKws path m kws
  | .attrE v _ _ _ => secExpr path m v
  | .unary _ o _ _ => secExpr path m o
  | .binOp l op r line col =>
    (match op, l with
     | .modK, .constE (.strV s) _ _ => checkSqlPattern path s line col
     | _, _ => []) ++ secExpr path m l ++ secExpr path m r
  | .compare left _ comps _ _ => secExpr path m left ++ secExprs path m comps
  | .listE elts _ _ => secExprs path m elts
  | .tupleE elts _ _ => secExprs path m elts
  | .dictE keys values _ _ => secOptExprs path m keys ++ secExprs path m values
  | .setE elts _ _ => secExprs path m elts
  | .subscript v s _ _ => secExpr path m v ++ secExpr path m s
  | .joinedStr vs line col =>
    checkSqlFstring path vs line col ++ secExprs path m vs
  | .formattedValue v _ _ => secExpr path m v

/-- Traversal over an expression list. -/
def secExprs (path : String) (m : AliasMap) : List Expr → List Finding
  | [] => []
  | e :: es => secExpr path m e ++ secExprs path m es

/-- Traversal over an optional expression. -/
def secOptExpr (path : String) (m : AliasMap) : Option Expr → List Finding
  | none => []
  | some e => secExpr path m e

/-- Traversal over a list of optional expressions. -/
def secOptExprs (path : String) (m : AliasMap) :
    List (Option Expr) → List Finding
  | [] => []
  | e :: es => secOptExpr path m e ++ secOptExprs path m es

/-- Traversal over call keywords. -/
def secKws (path : String) (m : AliasMap) : List Kw → List Finding
  | [] => []
  | .mk _ v :: ks => secExpr path m v ++ secKws path m ks

/-- Traversal over the children of an `ast.arguments` node (`kw_defaults`
precedes `defaults` in field order). -/
def secFArgs (path : String) (m : AliasMap) : FArgs → List Finding
  | .mk _ _ _ defaults kwDefaults =>
    secOptExprs path m kwDefaults ++ secExprs path m defaults

end

/-- `SecurityPass.analyze`: like the correctness pass, with rule SEC000 for
both the missing file and the syntax error; other read failures escape. -/
def SecurityPass.analyze (path : String) (fa : FileAccess) :
    Except PyExc FindingCollection :=
  match fa with
  | .notFound =>
    .ok ⟨[{ message := "File not found: " ++ path, severity := Severity.error,
            location := { file := path, line := 1, column := 0 },
            rule_id := "SEC000", category := "security" }]⟩
  | .unreadable => .error PyExc.readError
  | .found content =>
    match content.parse with
    | .syntaxError msg lineno offset =>
      .ok ⟨[{ message := "Syntax error: " ++ msg, severity := Severity.error,
              location := { file := path, line := pyOrNat lineno 1,
                            column := offset.getD 0 },
              rule_id := "SEC000", category := "security" }]⟩
    | .parsed body => .ok ⟨(secStmts path [] body).2⟩

/-!
PerformancePass (`passes/performance.py`).  `_check_string_concat_in_loop`
uses `ast.walk` over the whole for-loop subtree; `ast.walk` is
breadth-first, which only affects the relative order of multiple PERF002
findings from one loop, not which findings exist — the embedding collects
the `AugAssign` descendants in depth-first pre-order.
-/

/-- The `_add_finding` helper of `_PerformanceChecker`. -/
def perfFinding (path msg : String) (sev : Severity) (line col : Nat)
    (rule : String) (sugg : Option String) : Finding :=
  { message := msg, severity := sev,
    location := { file := path, line := line, column := col },
    rule_id := rule, category := "performance", suggestion := sugg }

mutual

/-- All statement nodes of a statement's subtree, the node itself first
(expressions contain no statements, so only statement bodies are walked). -/
def walkStmt : Stmt → List Stmt
  | s => s :: walkInner s

/-- The statement-list children of one statement, walked recursively. -/
def walkInner : Stmt → List Stmt
  | .funcDef _ _ body _ _ _ => walkStmts body
  | .asyncFuncDef _ _ body _ _ _ => walkStmts body
  | .classDef _ _ body _ _ _ => walkStmts body
  | .forS _ _ body orelse _ _ => walkStmts body ++ walkStmts orelse
  | .whileS _ body orelse _ _ => walkStmts body ++ walkStmts orelse
  | .ifS _ body orelse _ _ => walkStmts body ++ walkStmts orelse
  | .tryS body handlers orelse finalBody _ _ =>
    walkStmts body ++ walkHandlers handlers ++
      walkStmts orelse ++ walkStmts finalBody
  | _ => []

/-- Walk over a statement list. -/
def walkStmts : List Stmt → List Stmt
  | [] => []
  | s :: ss => walkStmt s ++ walkStmts ss

/-- Walk over exception handlers. -/
def walkHandlers : List Handler → List Stmt
  | [] => []
  | .mk _ body _ _ :: hs => walkStmts body ++ walkHandlers hs

end

/-- PERF001 (`_check_range_len`): a for-loop iterating a one-argument
`range(...)` whose argument is a call to `len`. -/
def checkRangeLen (path : String) (iter : Expr) (line col : Nat) :
    List Finding :=
  match iter with
  | .call (.name "range" _ _ _) [.call (.name "len" _ _ _) _ _ _ _] _ _ _ =>
    [perfFinding path "Use of range(len(...)) — prefer enumerate() or direct iteration"
      Severity.info line col "PERF001"
      (some "Use 'for item in collection:' or 'for i, item in enumerate(collection):'")]
  | _ => []

/-- PERF002 (`_check_string_concat_in_loop`): every `AugAssign` in the
loop's subtree whose operator is `+=`, target a bare name, and value a
string literal or an f-string. -/
def checkStringConcatInLoop (path : String) (forNode : Stmt) : List Finding :=
  (walkStmt forNode).flatMap (fun s =>
    match s with
    | .augAssign (.name tid _ _ _) .add v line col =>
      match v with
      | .constE (.strV _) _ _ =>
        [perfFinding path
          ("String concatenation with += in loop (variable '" ++ tid ++ "')")
          Severity.warning line col "PERF002"
          (some "Use ''.join() or a list to build strings — += creates a new string each iteration")]
      | .joinedStr _ _ _ =>
        [perfFinding path
          ("String concatenation with += in loop (variable '" ++ tid ++ "')")
          Severity.warning line col "PERF002"
          (some "Use ''.join() or a list to build strings — += creates a new string each iteration")]
      | _ => []
    | _ => [])

/-- Whether a call expression is a bare `.append(arg)` with exactly one
positional argument and no keywords. -/
def isSimpleAppendCall : Expr → Bool
  | .call (.attrE _ "append" _ _) [_] [] _ _ => true
  | _ => false

/-- PERF003 (`_check_append_in_loop`): a for-loop whose body is exactly one
statement that is a bare append call, or an `if` with no else whose single
body statement is such a call; reported at the for-loop's position. -/
def checkAppendInLoop (path : String) (body : List Stmt) (line col : Nat) :
    List Finding :=
  match body with
  | [stmt] =>
    (match stmt with
     | .exprS v _ _ =>
       if isSimpleAppendCall v then
         [perfFinding path "Simple .append() in for-loop could be a list comprehension"
           Severity.hint line col "PERF003"
           (some "Consider: [expr for item in iterable] instead of a loop with .append()")]
       else []
     | _ => []) ++
    (match stmt with
     | .ifS _ [inner] [] _ _ =>
       (match inner with
        | .exprS v _ _ =>
          if isSimpleAppendCall v then
            [perfFinding path "Filtered .append() in for-loop could be a list comprehension"
              Severity.hint line col "PERF003"
              (some "Consider: [expr for item in iterable if condition]")]
          else []
        | _ => [])
     | _ => [])
  | _ => []

/-- PERF004 (`visit_Compare` of the performance checker): membership tests
against a list literal of at least three elements, all literal constants;
reported at the list literal's position. -/
def perfCompareScan (path : String) : List CmpOpK → List Expr → List Finding
  | [], _ => []
  | _ :: _, [] => []
  | op :: ops, c :: cs =>
    (if op = CmpOpK.inK ∨ op = CmpOpK.notInK then
      match c with
      | .listE elts line col =>
        if elts.length ≥ 3 &&
            elts.all (fun e => match e with | .constE _ _ _ => true | _ => false) then
          [perfFinding path
            "Membership test on list literal — use a set literal for O(1) lookup"
            Severity.info line col "PERF004"
            (some "Replace [...] with \x7b...\x7d for constant-time membership testing")]
        else []
      | _ => []
    else []) ++ perfCompareScan path ops cs

/-- PERF005 (`_check_constructor_vs_literal`): `dict()`, `list()` or
`tuple()` with no arguments and no keywords. -/
def checkConstructorVsLiteral (path : String) (func : Expr) (args : List Expr)
    (kws : List Kw) (line col : Nat) : List Finding :=
  match func with
  | .name fid _ _ _ =>
    if !args.isEmpty || !kws.isEmpty then []
    else
      let entry : Option (String × String) :=
        if fid == "dict" then some ("\x7b\x7d", "dict()")
        else if fid == "list" then some ("[]", "list()")
        else if fid == "tuple" then some ("()", "tuple()")
        else none
      match entry with
      | none => []
      | some (literal, constructor) =>
        [perfFinding path (constructor ++ " is slower than " ++ literal ++ " literal")
          Severity.hint line col "PERF005"
          (some ("Use " ++ literal ++ " instead of " ++ constructor ++
            " — literals avoid function call overhead"))]
  | _ => []

/-- A constant viewed as a Python `int` for `isinstance(value, int)`:
Python `bool` is an `int` subclass, so `True`/`False` count as `1`/`0`. -/
def constAsPyInt : Const → Option Int
  | .intV n => some n
  | .boolV b => some (if b then 1 else 0)
  | _ => none

/-- `_resolve_index`: an integer constant, or unary minus applied to an
integer constant (`-1` parses as `UnaryOp(USub, Constant(1))`). -/
def resolveIndex : Expr → Option Int
  | .constE c _ _ => constAsPyInt c
  | .unary .usub (.constE c _ _) _ _ => (constAsPyInt c).map (fun n => -n)
  | _ => none

/-- PERF006 (the check part of `visit_Subscript`): subscripting a call to
`sorted` at resolved index `0` (suggest `min()`) or `-1` (suggest
`max()`). -/
def sortedSubscriptCheck (path : String) (value slice : Expr) (line col : Nat) :
    List Finding :=
  match value with
  | .call (.name "sorted" _ _ _) _ _ _ _ =>
    match resolveIndex slice with
    | none => []
    | some idx =>
      if idx = 0 then
        [perfFinding path "sorted(...)[0] is O(n log n) — use min() for O(n)"
          Severity.warning line col "PERF006"
          (some "Replace sorted(x)[0] with min(x)")]
      else if idx = -1 then
        [perfFinding path "sorted(...)[-1] is O(n log n) — use max() for O(n)"
          Severity.warning line col "PERF006"
          (some "Replace sorted(x)[-1] with max(x)")]
      else []
  | _ => []

mutual

/-- The `_PerformanceChecker` traversal over one statement. -/
def perfStmt (path : String) : Stmt → List Finding
  | .forS t it body orelse line col =>
    checkRangeLen path it line col ++
      checkAppendInLoop path body line col ++
      checkStringConcatInLoop path (Stmt.forS t it body orelse line col) ++
      perfExpr path t ++ perfExpr path it ++
      perfStmts path body ++ perfStmts path orelse
  | .funcDef _ fargs body dec _ _ =>
    perfFArgs path fargs ++ perfStmts path body ++ perfExprs path dec
  | .asyncFuncDef _ fargs body dec _ _ =>
    perfFArgs path fargs ++ perfStmts path body ++ perfExprs path dec
  | .classDef _ bases body dec _ _ =>
    perfExprs path bases ++ perfStmts path body ++ perfExprs path dec
  | .ret v _ _ => perfOptExpr path v
  | .assign targets value _ _ => perfExprs path targets ++ perfExpr path value
  | .annAssign t ann v _ _ =>
    perfExpr path t ++ perfExpr path ann ++ perfOptExpr path v
  | .augAssign t _ v _ _ => perfExpr path t ++ perfExpr path v
  | .whileS test body orelse _ _ =>
    perfExpr path test ++ perfStmts path body ++ perfStmts path orelse
  | .ifS test body orelse _ _ =>
    perfExpr path test ++ perfStmts path body ++ perfStmts path orelse
  | .tryS body handlers orelse finalBody _ _ =>
    perfStmts path body ++ perfHandlers path handlers ++
      perfStmts path orelse ++ perfStmts path finalBody
  | .raiseS e _ _ => perfOptExpr path e
  | .assertS test msg _ _ => perfExpr path test ++ perfOptExpr path msg
  | .importS _ _ _ => []
  | .importFrom _ _ _ _ => []
  | .exprS v _ _ => perfExpr path v
  | .passS _ _ => []
  | .breakS _ _ => []
  | .continueS _ _ => []

/-- Traversal over a statement list. -/
def perfStmts (path : String) : List Stmt → List Finding
  | [] => []
  | s :: ss => perfStmt path s ++ perfStmts path ss

/-- Traversal over exception handlers. -/
def perfHandlers (path : String) : List Handler → List Finding
  | [] => []
  | .mk type body _ _ :: hs =>
    perfOptExpr path type ++ perfStmts path body ++ perfHandlers path hs

/-- The `_PerformanceChecker` traversal over one expression. -/
def perfExpr (path : String) : Expr → List Finding
  | .name _ _ _ _ => []
  | .constE _ _ _ => []
  | .call f args kws line col =>
    checkConstructorVsLiteral path f args kws line col ++
      perfExpr path f ++ perfExprs path args ++ perfKws path kws
  | .attrE v _ _ _ => perfExpr path v
  | .unary _ o _ _ => perfExpr path o
  | .binOp l _ r _ _ => perfExpr path l ++ perfExpr path r
  | .compare left ops comps _ _ =>
    perfCompareScan path ops comps ++ perfExpr path left ++ perfExprs path comps
  | .listE elts _ _ => perfExprs path elts
  | .tupleE elts _ _ => perfExprs path elts
  | .dictE keys values _ _ => perfOptExprs path keys ++ perfExprs path values
  | .setE elts _ _ => perfExprs path elts
  | .subscript v s line col =>
    sortedSubscriptCheck path v s line col ++ perfExpr path v ++ perfExpr path s
  | .joinedStr vs _ _ => perfExprs path vs
  | .formattedValue v _ _ => perfExpr path v

/-- Traversal over an expression list. -/
def perfExprs (path : String) : List Expr → List Finding
  | [] => []
  | e :: es => perfExpr path e ++ perfExprs path es

/-- Traversal over an optional expression. -/
def perfOptExpr (path : String) : Option Expr → List Finding
  | none => []
  | some e => perfExpr path e

/-- Traversal over a list of optional expressions. -/
def perfOptExprs (path : String) : List (Option Expr) → List Finding
  | [] => []
  | e :: es => perfOptExpr path e ++ perfOptExprs path es

/-- Traversal over call keywords. -/
def perfKws (path : String) : List Kw → List Finding
  | [] => []
  | .mk _ v :: ks => perfExpr path v ++ perfKws path ks

/-- Traversal over the children of an `ast.arguments` node. -/
def perfFArgs (path : String) : FArgs → List Finding
  | .mk _ _ _ defaults kwDefaults =>
    perfOptExprs path kwDefaults ++ perfExprs path defaults

end

/-- `PerformancePass.analyze`: rule PERF000 for both the missing file and
the syntax error; other read failures escape. -/
def PerformancePass.analyze (path : String) (fa : FileAccess) :
    Except PyExc FindingCollection :=
  match fa with
  | .notFound =>
    .ok ⟨[{ message := "File not found: " ++ path, severity := Severity.error,
            location := { file := path, line := 1, column := 0 },
            rule_id := "PERF000", category := "performance" }]⟩
  | .unreadable => .error PyExc.readError
  | .found content =>
    match content.parse with
    | .syntaxError msg lineno offset =>
      .ok ⟨[{ message := "Syntax error: " ++ msg, severity := Severity.error,
              location := { file := path, line := pyOrNat lineno 1,
                            column := offset.getD 0 },
              rule_id := "PERF000", category := "performance" }]⟩
    | .parsed body => .ok ⟨perfStmts path body⟩

/-!
StylePass (`passes/style.py`).  The line-oriented scan works on the raw
lines; the tree-oriented scan (import ordering plus the `_StyleChecker`
visitor) runs only when the parse succeeds, and a `SyntaxError` is
swallowed (`except SyntaxError: pass`).  The `_in_class` flag of
`_StyleChecker` is saved and restored but never read by any rule, so it
is omitted.  String predicates model Python's ASCII case behaviour
(identifier claims below are restricted to ASCII names).
-/

/-- The regex class `[A-Z]` (`Char.isUpper` tests exactly the ASCII range
65-90). -/
def isUpperAZ (c : Char) : Bool := c.isUpper

/-- The regex class `[a-z]` (`Char.isLower` tests exactly the ASCII range
97-122). -/
def isLowerAZ (c : Char) : Bool := c.isLower

/-- The regex class `[0-9]` (`Char.isDigit` tests exactly the ASCII digit
range). -/
def isDigit09 (c : Char) : Bool := c.isDigit

/-- Python `str.isupper()` on ASCII text: at least one cased character and
no lowercase one (letters are the cased characters). -/
def pyIsUpper (s : String) : Bool :=
  s.data.any (fun c => c.isAlpha) && s.data.all (fun c => !c.isAlpha || isUpperAZ c)

/-- Python `name.upper() == name` (ASCII): upper-casing changes exactly
the lowercase letters, so the string equals its upper-casing iff it
contains none. -/
def pyUpperEqSelf (s : String) : Bool :=
  s.data.all (fun c => !c.isLower)

/-- The guard of the STY014 branch in `visit_Name`:
`name.isupper() or (name.upper() == name and "_" in name)`. -/
def sty14Trigger (s : String) : Bool :=
  pyIsUpper s || (pyUpperEqSelf s && s.data.contains '_')

/-- Core of `SNAKE_CASE_PATTERN` after optional leading underscores:
`[a-z][a-z0-9_]*` covering the rest of the string (the trailing `_?_?` of
the pattern is absorbed by the starred class, which contains `_`). -/
def snakeCore : List Char → Bool
  | [] => false
  | c :: cs => isLowerAZ c && cs.all (fun d => isLowerAZ d || isDigit09 d || d == '_')

/-- Core of `UPPER_CASE_PATTERN` after optional leading underscores:
`[A-Z][A-Z0-9_]*` covering the rest of the string. -/
def upperCore : List Char → Bool
  | [] => false
  | c :: cs => isUpperAZ c && cs.all (fun d => isUpperAZ d || isDigit09 d || d == '_')

/-- Core of `PASCAL_CASE_PATTERN` after an optional leading underscore:
`[A-Z][a-zA-Z0-9]*` covering the rest of the string. -/
def pascalCore : List Char → Bool
  | [] => false
  | c :: cs => isUpperAZ c && cs.all (fun d => isUpperAZ d || isLowerAZ d || isDigit09 d)

/-- Anchored match of `_?_?` followed by a core: the core may start after
zero, one or two leading underscores. -/
def upToTwoUnderscores (core : List Char → Bool) (cs : List Char) : Bool :=
  core cs ||
    (match cs with
     | '_' :: r =>
       core r || (match r with | '_' :: r2 => core r2 | _ => false)
     | _ => false)

/-- `StylePass.is_snake_case`: full match of `^_?_?[a-z][a-z0-9_]*_?_?$`. -/
def is_snake_case (s : String) : Bool := upToTwoUnderscores snakeCore s.data

/-- `StylePass.is_upper_case`: full match of `^_?_?[A-Z][A-Z0-9_]*_?_?$`. -/
def is_upper_case (s : String) : Bool := upToTwoUnderscores upperCore s.data

/-- `StylePass.is_pascal_case`: full match of `^_?[A-Z][a-zA-Z0-9]*$`. -/
def is_pascal_case (s : String) : Bool :=
  pascalCore s.data ||
    (match s.data with
     | '_' :: r => pascalCore r
     | _ => false)

/-- First substitution of `_to_snake_case`
(`([A-Z]+)([A-Z][a-z])` to `\1_\2`): insert an underscore before an
uppercase letter that follows an uppercase letter and precedes a
lowercase one. -/
def camelSub1 : Option Char → List Char → List Char
  | _, [] => []
  | prev, c :: cs =>
    let ins := match prev, cs with
      | some p, n :: _ => isUpperAZ p && isUpperAZ c && isLowerAZ n
      | _, _ => false
    (if ins then ['_', c] else [c]) ++ camelSub1 (some c) cs

/-- Second substitution of `_to_snake_case`
(`([a-z\d])([A-Z])` to `\1_\2`): insert an underscore before an uppercase
letter that follows a lowercase letter or digit. -/
def camelSub2 : Option Char → List Char → List Char
  | _, [] => []
  | prev, c :: cs =>
    let ins := match prev with
      | some p => (isLowerAZ p || isDigit09 p) && isUpperAZ c
      | none => false
    (if ins then ['_', c] else [c]) ++ camelSub2 (some c) cs

/-- `_StyleChecker._to_snake_case`: the two substitutions, then `lower()`. -/
def toSnakeCase (s : String) : String :=
  ⟨(camelSub2 none (camelSub1 none s.data)).map Char.toLower⟩

/-- Python `str.capitalize()`: first character upper-cased, the rest
lower-cased. -/
def pyCapitalize (s : String) : String :=
  match s.data with
  | [] => ""
  | c :: cs => ⟨c.toUpper :: cs.map Char.toLower⟩

/-- `_StyleChecker._to_pascal_case`: replace `-` with `_`, split on `_`,
capitalize the non-empty parts and concatenate. -/
def toPascalCase (s : String) : String :=
  let replaced : String := ⟨s.data.map (fun c => if c == '-' then '_' else c)⟩
  String.join (((pySplit replaced '_').filter (fun w => w != "")).map pyCapitalize)

/-- The finding constructor shared by the style checks (category
`"style"`). -/
def styFinding (path msg : String) (sev : Severity) (line col : Nat)
    (rule : String) (sugg : Option String) : Finding :=
  { message := msg, severity := sev,
    location := { file := path, line := line, column := col },
    rule_id := rule, category := "style", suggestion := sugg }

/-- `line.rstrip("\n\r")`: drop trailing newline and carriage-return
characters. -/
def rstripNL (s : String) : String :=
  ⟨(s.data.reverse.dropWhile (fun c => c == '\n' || c == '\r')).reverse⟩

/-- Python `str.rstrip()` with no argument: drop trailing whitespace. -/
def pyRstrip (s : String) : String :=
  ⟨(s.data.reverse.dropWhile pyIsSpace).reverse⟩

/-- The per-line loop of `_check_line_issues`: STY001 (overlong line),
STY002 (trailing whitespace), STY003 (third-plus consecutive blank line),
with the consecutive-blank counter threaded through. -/
def lineScan (path : String) : Nat → Nat → List String → List Finding
  | _, _, [] => []
  | lineNum, blanks, line :: rest =>
    let lw := rstripNL line
    (if lw.length > 100 then
      [styFinding path ("Line too long (" ++ toString lw.length ++ " > 100)")
        Severity.info lineNum 100 "STY001"
        (some "Break this line to be under 100 characters")]
    else []) ++
    (if lw != pyRstrip lw then
      [styFinding path "Trailing whitespace" Severity.hint lineNum
        (pyRstrip lw).length "STY002" (some "Remove trailing whitespace")]
    else []) ++
    (let isBlank := pyStrip lw == ""
     let blanks2 := if isBlank then blanks + 1 else 0
     (if isBlank && blanks2 > 2 then
       [styFinding path "Too many consecutive blank lines" Severity.hint
         lineNum 0 "STY003" (some "Use at most 2 consecutive blank lines")]
     else []) ++ lineScan path (lineNum + 1) blanks2 rest)

/-- `_check_line_issues`: the per-line scan followed by STY004 when the
last line lacks a terminating newline. -/
def checkLineIssues (path : String) (lines : List String) : List Finding :=
  lineScan path 1 0 lines ++
    (match lines.getLast? with
     | some last =>
       if !(pyEndsWith last "\n") then
         [styFinding path "File does not end with newline" Severity.hint
           lines.length 0 "STY004" (some "Add a newline at end of file")]
       else []
     | none => [])

/-- The stdlib allow-list of `_classify_import`. -/
def stdlibModules : List String :=
  ["abc", "ast", "asyncio", "base64", "collections", "contextlib",
   "copy", "dataclasses", "datetime", "decimal", "enum", "functools",
   "hashlib", "hmac", "html", "http", "importlib", "inspect", "io",
   "itertools", "json", "logging", "math", "operator", "os", "pathlib",
   "pickle", "platform", "pprint", "queue", "random", "re", "secrets",
   "shutil", "signal", "socket", "sqlite3", "string", "subprocess",
   "sys", "tempfile", "threading", "time", "traceback", "typing",
   "unittest", "urllib", "uuid", "warnings", "weakref", "xml", "zipfile"]

/-- `_classify_import`: classify by the top-level component of the dotted
module name. -/
def classifyImport (moduleName : String) : String :=
  let topLevel := (pySplit moduleName '.').headD moduleName
  if stdlibModules.contains topLevel then "stdlib"
  else if pyStartsWith topLevel "." || topLevel == "review_agent" then "local"
  else "third_party"

mutual

/-- Import records `(lineno, import_type, module)` collected by the
`ast.walk` loop of `_check_imports` from one statement's subtree
(depth-first here; the later stable sort by `lineno` makes the walk order
irrelevant except between imports on one line). -/
def collectImpStmt : Stmt → List (Nat × String × String)
  | .importS names line _ =>
    names.map (fun a => (line, classifyImport a.name, a.name))
  | .importFrom module _ line _ =>
    (match module with
     | some mod => if mod != "" then [(line, classifyImport mod, mod)] else []
     | none => [])
  | .funcDef _ _ body _ _ _ => collectImpStmts body
  | .asyncFuncDef _ _ body _ _ _ => collectImpStmts body
  | .classDef _ _ body _ _ _ => collectImpStmts body
  | .forS _ _ body orelse _ _ => collectImpStmts body ++ collectImpStmts orelse
  | .whileS _ body orelse _ _ => collectImpStmts body ++ collectImpStmts orelse
  | .ifS _ body orelse _ _ => collectImpStmts body ++ collectImpStmts orelse
  | .tryS body handlers orelse finalBody _ _ =>
    collectImpStmts body ++ collectImpHandlers handlers ++
      collectImpStmts orelse ++ collectImpStmts finalBody
  | _ => []

/-- Import collection over a statement list. -/
def collectImpStmts : List Stmt → List (Nat × String × String)
  | [] => []
  | s :: ss => collectImpStmt s ++ collectImpStmts ss

/-- Import collection over exception handlers. -/
def collectImpHandlers : List Handler → List (Nat × String × String)
  | [] => []
  | .mk _ body _ _ :: hs => collectImpStmts body ++ collectImpHandlers hs

end

/-- The expected group order of `_check_imports`. -/
def expectedOrder : List String := ["stdlib", "third_party", "local"]

/-- The group-ordering loop of `_check_imports`: a violation fires when an
import's group index drops below the running maximum; otherwise the
running index advances.  An unknown group name is skipped
(`except ValueError: continue`, dead in practice). -/
def importOrderScan (path : String) : Nat → List (Nat × String × String) →
    List Finding
  | _, [] => []
  | current, (line, itype, module) :: rest =>
    match expectedOrder.indexOf? itype with
    | none => importOrderScan path current rest
    | some tidx =>
      if tidx < current then
        [styFinding path
          ("Import '" ++ module ++ "' is out of order (expected " ++
            (expectedOrder.getD current "") ++ " imports)")
          Severity.info line 0 "STY005"
          (some "Group imports: stdlib, then third-party, then local")] ++
        importOrderScan path current rest
      else importOrderScan path tidx rest

/-- `_check_imports`: collect `(lineno, type, module)` records, sort stably
by `lineno`, then run the group-ordering loop. -/
def checkImports (path : String) (body : List Stmt) : List Finding :=
  importOrderScan path 0
    ((collectImpStmts body).mergeSort (fun a b => a.1 ≤ b.1))

/-- `_check_function_name`: dunder names are exempt; otherwise STY011 for a
non-snake_case name and STY012 for a name longer than 40 characters. -/
def checkFunctionName (path nm : String) (line col : Nat) : List Finding :=
  if pyStartsWith nm "__" && pyEndsWith nm "__" then []
  else
    (if !(is_snake_case nm) then
      [styFinding path ("Function name '" ++ nm ++ "' should use snake_case")
        Severity.warning line col "STY011"
        (some ("Rename to '" ++ toSnakeCase nm ++ "'"))]
    else []) ++
    (if nm.length > 40 then
      [styFinding path ("Function name '" ++ nm ++ "' is too long (" ++
          toString nm.length ++ " > 40)")
        Severity.info line col "STY012"
        (some "Consider a shorter, more concise name")]
    else [])

/-- `_check_argument_names`: parameters from
`node.args.args + node.args.posonlyargs + node.args.kwonlyargs` (in that
order), excluding `self`/`cls`, that are not snake_case. -/
def checkArgumentNames (path : String) : FArgs → List Finding
  | .mk posonlyargs args kwonlyargs _ _ =>
    (args ++ posonlyargs ++ kwonlyargs).flatMap (fun a =>
      if a.arg == "self" || a.arg == "cls" then []
      else if !(is_snake_case a.arg) then
        [styFinding path ("Argument name '" ++ a.arg ++ "' should use snake_case")
          Severity.warning a.line a.col "STY013"
          (some ("Rename to '" ++ toSnakeCase a.arg ++ "'"))]
      else [])

/-- `visit_Name` of `_StyleChecker`: only store context; underscore-prefixed
names are exempt; an uppercase-looking name failing the UPPER_CASE
pattern is STY014; otherwise a name failing both snake and upper patterns
and longer than one character is STY015. -/
def styleNameFindings (path id : String) (ctx : Ctx) (line col : Nat) :
    List Finding :=
  match ctx with
  | .store =>
    if pyStartsWith id "_" then []
    else if sty14Trigger id then
      (if !(is_upper_case id) then
        [styFinding path ("Constant '" ++ id ++ "' should use UPPER_CASE")
          Severity.info line col "STY014" none]
      else [])
    else if !(is_snake_case id) && !(is_upper_case id) then
      (if id.length > 1 then
        [styFinding path ("Variable name '" ++ id ++ "' should use snake_case")
          Severity.info line col "STY015"
          (some ("Rename to '" ++ toSnakeCase id ++ "'"))]
      else [])
    else []
  | _ => []

/-- The STY010 check of `visit_ClassDef`. -/
def checkClassName (path nm : String) (line col : Nat) : List Finding :=
  if !(is_pascal_case nm) then
    [styFinding path ("Class name '" ++ nm ++ "' should use PascalCase")
      Severity.warning line col "STY010"
      (some ("Rename to '" ++ toPascalCase nm ++ "'"))]
  else []

mutual

/-- The `_StyleChecker` traversal over one statement. -/
def styleStmt (path : String) : Stmt → List Finding
  | .funcDef nm fargs body dec line col =>
    checkFunctionName path nm line col ++ checkArgumentNames path fargs ++
      styleFArgs path fargs ++ styleStmts path body ++ styleExprs path dec
  | .asyncFuncDef nm fargs body dec line col =>
    checkFunctionName path nm line col ++ checkArgumentNames path fargs ++
      styleFArgs path fargs ++ styleStmts path body ++ styleExprs path dec
  | .classDef nm bases body dec line col =>
    checkClassName path nm line col ++
      styleExprs path bases ++ styleStmts path body ++ styleExprs path dec
  | .ret v _ _ => styleOptExpr path v
  | .assign targets value _ _ => styleExprs path targets ++ styleExpr path value
  | .annAssign t ann v _ _ =>
    styleExpr path t ++ styleExpr path ann ++ styleOptExpr path v
  | .augAssign t _ v _ _ => styleExpr path t ++ styleExpr path v
  | .forS t it body orelse _ _ =>
    styleExpr path t ++ styleExpr path it ++
      styleStmts path body ++ styleStmts path orelse
  | .whileS test body orelse _ _ =>
    styleExpr path test ++ styleStmts path body ++ styleStmts path orelse
  | .ifS test body orelse _ _ =>
    styleExpr path test ++ styleStmts path body ++ styleStmts path orelse
  | .tryS body handlers orelse finalBody _ _ =>
    styleStmts path body ++ styleHandlers path handlers ++
      styleStmts path orelse ++ styleStmts path finalBody
  | .raiseS e _ _ => styleOptExpr path e
  | .assertS test msg _ _ => styleExpr path test ++ styleOptExpr path msg
  | .importS _ _ _ => []
  | .importFrom _ _ _ _ => []
  | .exprS v _ _ => styleExpr path v
  | .passS _ _ => []
  | .breakS _ _ => []
  | .continueS _ _ => []

/-- Traversal over a statement list. -/
def styleStmts (path : String) : List Stmt → List Finding
  | [] => []
  | s :: ss => styleStmt path s ++ styleStmts path ss

/-- Traversal over exception handlers. -/
def styleHandlers (path : String) : List Handler → List Finding
  | [] => []
  | .mk type body _ _ :: hs =>
    styleOptExpr path type ++ styleStmts path body ++ styleHandlers path hs

/-- The `_StyleChecker` traversal over one expression. -/
def styleExpr (path : String) : Expr → List Finding
  | .name id ctx line col => styleNameFindings path id ctx line col
  | .constE _ _ _ => []
  | .call f args kws _ _ =>
    styleExpr path f ++ styleExprs path args ++ styleKws path kws
  | .attrE v _ _ _ => styleExpr path v
  | .unary _ o _ _ => styleExpr path o
  | .binOp l _ r _ _ => styleExpr path l ++ styleExpr path r
  | .compare left _ comps _ _ => styleExpr path left ++ styleExprs path comps
  | .listE elts _ _ => styleExprs path elts
  | .tupleE elts _ _ => styleExprs path elts
  | .dictE keys values _ _ =>
    styleOptExprs path keys ++ styleExprs path values
  | .setE elts _ _ => styleExprs path elts
  | .subscript v s _ _ => styleExpr path v ++ styleExpr path s
  | .joinedStr vs _ _ => styleExprs path vs
  | .formattedValue v _ _ => styleExpr path v

/-- Traversal over an expression list. -/
def styleExprs (path : String) : List Expr → List Finding
  | [] => []
  | e :: es => styleExpr path e ++ styleExprs path es

/-- Traversal over an optional expression. -/
def styleOptExpr (path : String) : Option Expr → List Finding
  | none => []
  | some e => styleExpr path e

/-- Traversal over a list of optional expressions. -/
def styleOptExprs (path : String) : List (Option Expr) → List Finding
  | [] => []
  | e :: es => styleOptExpr path e ++ styleOptExprs path es

/-- Traversal over call keywords. -/
def styleKws (path : String) : List Kw → List Finding
  | [] => []
  | .mk _ v :: ks => styleExpr path v ++ styleKws path ks

/-- Traversal over the children of an `ast.arguments` node. -/
def styleFArgs (path : String) : FArgs → List Finding
  | .mk _ _ _ defaults kwDefaults =>
    styleOptExprs path kwDefaults ++ styleExprs path defaults

end

/-- `StylePass.analyze`: STY000 for the missing file; the line checks run
on the raw lines; the tree checks (import ordering then the visitor) run
only when the parse succeeds, a `SyntaxError` being silently swallowed.
Other read failures escape. -/
def StylePass.analyze (path : String) (fa : FileAccess) :
    Except PyExc FindingCollection :=
  match fa with
  | .notFound =>
    .ok ⟨[{ message := "File not found: " ++ path, severity := Severity.error,
            location := { file := path, line := 1, column := 0 },
            rule_id := "STY000", category := "style" }]⟩
  | .unreadable => .error PyExc.readError
  | .found content =>
    .ok ⟨checkLineIssues path content.lines ++
      (match content.parse with
       | .parsed body => checkImports path body ++ styleStmts path body
       | .syntaxError _ _ _ => [])⟩

/-!
The presentation-layer registry and `run_analysis` (`__main__.py`).
-/

/-- The four concrete passes. -/
inductive PassId where
  | correctness
  | security
  | performance
  | style
  deriving DecidableEq, Repr

/-- The `PASSES` registry dict of `__main__.py`, in source order.  It has
exactly three entries: `CorrectnessPass`, `SecurityPass` and `StylePass`;
`PerformancePass` is not registered. -/
def PASSES : List (String × PassId) :=
  [("correctness", PassId.correctness),
   ("security", PassId.security),
   ("style", PassId.style)]

/-- Dict lookup `PASSES[name]`, as an option (`none` is Python's
`KeyError`). -/
def lookupPass (nm : String) : Option PassId := PASSES.lookup nm

/-- Dispatch of `pass_instance.analyze(file_path)` over the pass variants. -/
def passAnalyze (p : PassId) (path : String) (fa : FileAccess) :
    Except PyExc FindingCollection :=
  match p with
  | .correctness => CorrectnessPass.analyze path fa
  | .security => SecurityPass.analyze path fa
  | .performance => PerformancePass.analyze path fa
  | .style => StylePass.analyze path fa

/-- The pass-specific "file not found" rule id (the `000` code of each
pass). -/
def rule000 (p : PassId) : String :=
  match p with
  | .correctness => "COR000"
  | .security => "SEC000"
  | .performance => "PERF000"
  | .style => "STY000"

/-- The category string each pass stamps on its findings. -/
def passCategory (p : PassId) : String :=
  match p with
  | .correctness => "correctness"
  | .security => "security"
  | .performance => "performance"
  | .style => "style"

/-- The inner loop of `run_analysis` over files for one pass: findings are
concatenated in file order; an exception from `analyze` propagates. -/
def runPassOnFiles (p : PassId) : List (String × FileAccess) →
    Except PyExc (List Finding)
  | [] => .ok []
  | (path, fa) :: rest => do
    let fc ← passAnalyze p path fa
    let more ← runPassOnFiles p rest
    return fc.findings ++ more

/-- The outer loop of `run_analysis` over pass names: `PASSES[name]` raises
`KeyError` for an unregistered name. -/
def runPasses (passNames : List String) (files : List (String × FileAccess)) :
    Except PyExc (List Finding)
  := match passNames with
  | [] => .ok []
  | nm :: rest =>
    match lookupPass nm with
    | none => .error (PyExc.keyError nm)
    | some p => do
      let fs ← runPassOnFiles p files
      let more ← runPasses rest files
      return fs ++ more

/-- The list `severity_order` of `run_analysis`. -/
def severityOrder : List Severity :=
  [Severity.error, Severity.warning, Severity.info, Severity.hint]

/-- The filtering step of `run_analysis` (lines 55-64 of `__main__.py`):
`allowed` is the prefix of `severity_order` through `min_severity`, and
the merged findings are kept exactly when their severity is in it. -/
def minSeverityFilter (minSeverity : Severity) (fs : List Finding) :
    List Finding :=
  let allowed := severityOrder.take (severityOrder.indexOf minSeverity + 1)
  fs.filter (fun f => allowed.contains f.severity)

/-- `run_analysis`: all (pass, file) collections concatenated in
pass-then-file order, then filtered by the minimum severity. -/
def run_analysis (files : List (String × FileAccess)) (passNames : List String)
    (minSeverity : Severity) : Except PyExc FindingCollection :=
  (runPasses passNames files).map (fun all => ⟨minSeverityFilter minSeverity all⟩)

/-!
Theorems about the claims, one per claim (helper lemmas first).
-/

/-- The `allowed` prefix of `severity_order` contains a severity exactly
when that severity ranks at or above the threshold. -/
theorem severity_take_contains (minSev sev : Severity) :
    (severityOrder.take (severityOrder.indexOf minSev + 1)).contains sev =
      decide (sev.rank ≤ minSev.rank) := by
  cases minSev <;> cases sev <;> rfl

/-- Claim C9: the derived views `filter_by_severity`, `filter_by_file`,
`filter_by_category`, `sorted_by_severity` and `sorted_by_location` of a
`FindingCollection` leave the receiver's state — its findings, in
insertion order — exactly as it was before the call. -/
theorem finding_collection_views_pure :
    ∀ (c : FindingCollection) (sev : Severity) (file cat : String),
      (c.filter_by_severity sev).1 = c ∧
      (c.filter_by_file file).1 = c ∧
      (c.filter_by_category cat).1 = c ∧
      c.sorted_by_severity.1 = c ∧
      c.sorted_by_location.1 = c :=
  fun _ _ _ _ => ⟨rfl, rfl, rfl, rfl, rfl⟩

/-- Claim C5: the minimum-severity filter of `run_analysis` keeps exactly
the findings whose severity ranks at or above the threshold (inclusive,
under ERROR < WARNING < INFO < HINT), and the ERROR-threshold result is
contained in the WARNING-threshold result for the same input. -/
theorem min_severity_filter_inclusive_monotone :
    ∀ (fs : List Finding) (minSev : Severity),
      (∀ f, f ∈ minSeverityFilter minSev fs ↔
        f ∈ fs ∧ f.severity.rank ≤ minSev.rank) ∧
      (∀ f, f ∈ minSeverityFilter Severity.error fs →
        f ∈ minSeverityFilter Severity.warning fs) := by
  intro fs minSev
  constructor
  · intro f
    simp [minSeverityFilter, List.mem_filter, severity_take_contains]
  · intro f hf
    have hmem : f ∈ fs ∧ f.severity.rank ≤ Severity.rank Severity.error := by
      simpa [minSeverityFilter, List.mem_filter, severity_take_contains] using hf
    simp only [minSeverityFilter, List.mem_filter, severity_take_contains,
      decide_eq_true_eq]
    exact ⟨hmem.1, le_trans hmem.2 (by simp [Severity.rank])⟩

/-- A sample ERROR finding for witnesses. -/
def sampleErrorFinding : Finding :=
  corFinding "w.py" "m" Severity.error 1 0 "COR000" none

/-- Witness for C5: a concrete ERROR finding kept at the ERROR threshold
is also kept at the WARNING threshold. -/
theorem min_severity_filter_inclusive_monotone_witness :
    sampleErrorFinding ∈ minSeverityFilter Severity.warning [sampleErrorFinding] :=
  (min_severity_filter_inclusive_monotone [sampleErrorFinding] Severity.error).2
    sampleErrorFinding (by decide)

/-- Claim C1 counterexample: a present-but-unreadable file makes every
pass's `analyze` raise the read error to the caller (only
`FileNotFoundError` and `SyntaxError` are caught), instead of returning
a single-finding collection. -/
theorem analyze_unreadable_file_raises :
    CorrectnessPass.analyze "a.py" FileAccess.unreadable = Except.error PyExc.readError ∧
    SecurityPass.analyze "a.py" FileAccess.unreadable = Except.error PyExc.readError ∧
    PerformancePass.analyze "a.py" FileAccess.unreadable = Except.error PyExc.readError ∧
    StylePass.analyze "a.py" FileAccess.unreadable = Except.error PyExc.readError :=
  ⟨rfl, rfl, rfl, rfl⟩

/-- Claim C1 (amended): for every pass and file path, analyzing a missing
file does not raise and returns a collection with exactly one finding —
severity ERROR, the pass-specific "000" rule id, line 1, column 0 — and
performs no further analysis of that file. -/
theorem analyze_missing_file_single_error_finding :
    ∀ (p : PassId) (path : String),
      passAnalyze p path FileAccess.notFound =
        Except.ok ⟨[{ message := "File not found: " ++ path,
                      severity := Severity.error,
                      location := { file := path, line := 1, column := 0 },
                      rule_id := rule000 p, category := passCategory p }]⟩ := by
  intro p path
  cases p <;> rfl

/-- Claim C2 counterexample: the `PASSES` registry does not map the name
"performance" — looking it up raises `KeyError`. -/
theorem performance_pass_not_in_registry : lookupPass "performance" = none := rfl

/-- Claim C2 (amended): the registry maps exactly the three names
"correctness", "security" and "style" to the corresponding passes, and
for every registered pass and every successfully read file `analyze`
produces a `FindingCollection`. -/
theorem registry_three_passes_analyze_total :
    lookupPass "correctness" = some PassId.correctness ∧
    lookupPass "security" = some PassId.security ∧
    lookupPass "style" = some PassId.style ∧
    PASSES.length = 3 ∧
    (∀ nm p, lookupPass nm = some p →
      ∀ path content, ∃ fc,
        passAnalyze p path (FileAccess.found content) = Except.ok fc) := by
  refine ⟨rfl, rfl, rfl, rfl, ?_⟩
  intro nm p _ path content
  rcases content with ⟨lines, parse⟩
  cases p <;> cases parse <;> exact ⟨_, rfl⟩

/-- Witness for C2 (amended): the registered style pass analyzes a
concrete empty file to a collection. -/
theorem registry_three_passes_analyze_total_witness :
    ∃ fc, passAnalyze PassId.style "w.py"
      (FileAccess.found ⟨[], ParseOutcome.parsed []⟩) = Except.ok fc :=
  registry_three_passes_analyze_total.2.2.2.2 "style" PassId.style rfl "w.py"
    ⟨[], ParseOutcome.parsed []⟩

/-- The module `def f():\n    if c:\n        return 1\n        print("dead")`:
a terminator immediately followed by a statement inside a nested block of
the function body. -/
def cor004NestedModule : List Stmt :=
  [Stmt.funcDef "f" (FArgs.mk [] [] [] [] [])
    [Stmt.ifS (Expr.name "c" Ctx.load 2 7)
      [Stmt.ret (some (Expr.constE (Const.intV 1) 3 15)) 3 8,
       Stmt.exprS (Expr.call (Expr.name "print" Ctx.load 4 8)
         [Expr.constE (Const.strV "dead") 4 14] [] 4 8) 4 8]
      [] 2 4] [] 1 0]

/-- Claim C3 counterexample: in the module above, the `return` inside the
if-block is immediately followed by another statement in the same block,
yet `CorrectnessPass.analyze` emits no COR004 finding (indeed no finding
at all): `_check_unreachable_code` receives only the top-level body list
of the function, never nested blocks. -/
theorem nested_block_dead_code_unreported :
    corStmts "t.py" cor004NestedModule = [] ∧
    CorrectnessPass.analyze "t.py"
      (FileAccess.found ⟨[], ParseOutcome.parsed cor004NestedModule⟩) =
      Except.ok ⟨[]⟩ :=
  ⟨rfl, rfl⟩

/-- Claim C3 (amended): `_check_unreachable_code` on the top-level
statement list of a function body reports exactly one COR004 WARNING, at
the statement following the first terminator, whenever the first
return/raise/break/continue is not the last statement; whatever follows
that statement is never scanned, and a list whose terminators (if any)
are only in last position yields nothing.  Nested blocks are not scanned
(see the counterexample). -/
theorem cor004_first_terminator_top_level :
    (∀ (path : String) (body : List Stmt) (i : Nat) (hi : i + 1 < body.length),
      isTerminator (body.get ⟨i, Nat.lt_of_succ_lt hi⟩) = true →
      (∀ j : Fin body.length, (j : Nat) < i → isTerminator (body.get j) = false) →
      checkUnreachableCode path body =
        [corFinding path "Unreachable code detected" Severity.warning
          (body.get ⟨i + 1, hi⟩).lineNo (body.get ⟨i + 1, hi⟩).colOff
          "COR004" (some "Remove or move the unreachable code")]) ∧
    (∀ (path : String) (body : List Stmt),
      (∀ i : Fin body.length, (i : Nat) + 1 < body.length →
        isTerminator (body.get i) = false) →
      checkUnreachableCode path body = []) := by
  constructor
  · intro path body
    induction body with
    | nil => intro i hi; simp at hi
    | cons s rest ih =>
      intro i hi hterm hbefore
      cases i with
      | zero =>
        have hs : isTerminator s = true := hterm
        cases rest with
        | nil => simp at hi
        | cons nxt rest2 => simp [checkUnreachableCode, hs]
      | succ i2 =>
        have hs : isTerminator s = false :=
          hbefore ⟨0, by omega⟩ (show (0 : Nat) < i2 + 1 by omega)
        have hi2 : i2 + 1 < rest.length := by
          simpa using Nat.lt_of_succ_lt_succ hi
        have hterm2 : isTerminator (rest.get ⟨i2, Nat.lt_of_succ_lt hi2⟩) = true :=
          hterm
        have hbefore2 : ∀ j : Fin rest.length, (j : Nat) < i2 →
            isTerminator (rest.get j) = false := by
          intro j hj
          exact hbefore ⟨(j : Nat) + 1, by omega⟩
            (show (j : Nat) + 1 < i2 + 1 by omega)
        have hrec := ih i2 hi2 hterm2 hbefore2
        simpa [checkUnreachableCode, hs] using hrec
  · intro path body
    induction body with
    | nil => intro _; rfl
    | cons s rest ih =>
      intro h
      by_cases hs : isTerminator s = true
      · cases rest with
        | nil => simp [checkUnreachableCode, hs]
        | cons nxt rest2 =>
          have h0 : isTerminator s = false :=
            h ⟨0, by simp⟩ (show (0 : Nat) + 1 < (s :: nxt :: rest2).length by
              simp)
          simp [h0] at hs
      · have hs2 : isTerminator s = false := by simpa using hs
        have hrec := ih (fun i hi =>
          h ⟨(i : Nat) + 1, by simp⟩
            (show (i : Nat) + 1 + 1 < (s :: rest).length by
              simp only [List.length_cons]; omega))
        simpa [checkUnreachableCode, hs2] using hrec

/-- Witness for C3 (amended): a top-level `return` followed by `pass` is
reported at the `pass`, and a body with no early terminator yields
nothing. -/
theorem cor004_first_terminator_top_level_witness :
    checkUnreachableCode "w.py" [Stmt.ret none 1 0, Stmt.passS 2 0] =
      [corFinding "w.py" "Unreachable code detected" Severity.warning 2 0
        "COR004" (some "Remove or move the unreachable code")] ∧
    checkUnreachableCode "w.py" [Stmt.passS 1 0] = [] :=
  ⟨cor004_first_terminator_top_level.1 "w.py"
      [Stmt.ret none 1 0, Stmt.passS 2 0] 0 (by decide) (by decide)
      (by decide),
    cor004_first_terminator_top_level.2 "w.py" [Stmt.passS 1 0] (by decide)⟩

/-- Splitting a separator-free character list gives one part. -/
theorem charSplit_of_not_mem (sep : Char) (l : List Char) (h : sep ∉ l) :
    charSplit sep l = [l] := by
  induction l with
  | nil => rfl
  | cons c cs ih =>
    have hc : (c == sep) = false := by
      simp only [List.mem_cons, not_or] at h
      simp [beq_eq_false_iff_ne]
      exact fun he => h.1 he.symm
    have hcs := ih (fun hm => h (List.mem_cons_of_mem c hm))
    simp [charSplit, hc, hcs]

/-- Splitting around one separator between two separator-free parts gives
exactly those two parts. -/
theorem charSplit_append (sep : Char) (l r : List Char)
    (hl : sep ∉ l) (hr : sep ∉ r) :
    charSplit sep (l ++ sep :: r) = [l, r] := by
  induction l with
  | nil => simp [charSplit, charSplit_of_not_mem sep r hr]
  | cons c cs ih =>
    have hc : (c == sep) = false := by
      simp only [List.mem_cons, not_or] at hl
      simp [beq_eq_false_iff_ne]
      exact fun he => hl.1 he.symm
    have hcs := ih (fun hm => hl (List.mem_cons_of_mem c hm))
    simp [charSplit, hc, hcs]

/-- A `String.mk` of a string's characters is the string. -/
theorem stringMk_data (s : String) : String.mk s.data = s := by
  cases s; rfl

/-- Splitting `o ++ "." ++ a` on `'.'` gives `[o, a]` when neither part
contains a dot. -/
theorem pySplit_dot (o a : String) (ho : '.' ∉ o.data) (ha : '.' ∉ a.data) :
    pySplit (o ++ "." ++ a) '.' = [o, a] := by
  have hdata : (o ++ "." ++ a).data = o.data ++ '.' :: a.data := by
    simp [String.data_append]
  simp [pySplit, hdata, charSplit_append '.' o.data a.data ho ha,
    stringMk_data]

/-- Resolving the freshly inserted alias gives its value. -/
theorem aliasResolve_single (k v : String) :
    aliasResolve (aliasInsert [] k v) k = v := by
  simp [aliasResolve, aliasGet, aliasInsert, List.find?]

/-- The dangerous-module-call check sees only the resolved module: binding
`m` to the local alias `o` and calling `o.a` behaves exactly like the
direct `m.a` call, for any attribute and dot-free names. -/
theorem checkDMC_alias_eq (m a o path : String) (args : List Expr)
    (kws : List Kw) (line col cl cc al ac : Nat)
    (ho : '.' ∉ o.data) (hm : '.' ∉ m.data) (ha : '.' ∉ a.data) :
    checkDangerousModuleCalls path (aliasInsert [] o m)
        (Expr.attrE (Expr.name o Ctx.load al ac) a cl cc) args kws line col =
      checkDangerousModuleCalls path (aliasInsert [] m m)
        (Expr.attrE (Expr.name m Ctx.load al ac) a cl cc) args kws line col := by
  simp only [checkDangerousModuleCalls, resolveCallName]
  rw [pySplit_dot o a ho ha, pySplit_dot m a hm ha]
  simp [aliasResolve_single]

/-- The aliased module `import os as o; o.system("x")`. -/
def aliasedOsModule : List Stmt :=
  [Stmt.importS [{ name := "os", asname := some "o" }] 1 0,
   Stmt.exprS (Expr.call (Expr.attrE (Expr.name "o" Ctx.load 2 0) "system" 2 0)
     [Expr.constE (Const.strV "x") 2 9] [] 2 0) 2 0]

/-- The direct module `import os; os.system("x")`. -/
def plainOsModule : List Stmt :=
  [Stmt.importS [{ name := "os", asname := none }] 1 0,
   Stmt.exprS (Expr.call (Expr.attrE (Expr.name "os" Ctx.load 2 0) "system" 2 0)
     [Expr.constE (Const.strV "x") 2 9] [] 2 0) 2 0]

/-- Claim C4: the dangerous-call matcher is invariant under import
aliasing.  `import os as o; o.system("x")` produces exactly the same
SEC005 finding as `import os; os.system("x")`, and in general, for every
`(module, attribute)` pair in the dangerous-call table and every dot-free
alias, the aliased call is detected exactly like the direct call. -/
theorem sec_dangerous_call_alias_invariance :
    (∀ path : String,
      (secStmts path [] aliasedOsModule).2 = (secStmts path [] plainOsModule).2) ∧
    (∀ path : String,
      (secStmts path [] aliasedOsModule).2 =
        [secFinding path "Use of os.system() allows shell injection"
          Severity.warning 2 0 "SEC005"
          (some "See https://owasp.org for secure alternatives")]) ∧
    (∀ (m a : String) (e : String × String), ((m, a), e) ∈ dangerousModuleCalls →
      ∀ (o path : String) (args : List Expr) (kws : List Kw)
        (line col cl cc al ac : Nat), '.' ∉ o.data →
        checkDangerousModuleCalls path (aliasInsert [] o m)
            (Expr.attrE (Expr.name o Ctx.load al ac) a cl cc) args kws line col =
          checkDangerousModuleCalls path (aliasInsert [] m m)
            (Expr.attrE (Expr.name m Ctx.load al ac) a cl cc) args kws line col) := by
  refine ⟨fun path => rfl, fun path => rfl, ?_⟩
  intro m a e hmem o path args kws line col cl cc al ac ho
  have hma : '.' ∉ m.data ∧ '.' ∉ a.data := by
    simp only [dangerousModuleCalls, List.mem_cons, List.not_mem_nil, or_false,
      Prod.mk.injEq] at hmem
    rcases hmem with ⟨⟨rfl, rfl⟩, -⟩ | ⟨⟨rfl, rfl⟩, -⟩ | ⟨⟨rfl, rfl⟩, -⟩ |
      ⟨⟨rfl, rfl⟩, -⟩ | ⟨⟨rfl, rfl⟩, -⟩ | ⟨⟨rfl, rfl⟩, -⟩ | ⟨⟨rfl, rfl⟩, -⟩ <;>
      exact ⟨by decide, by decide⟩
  exact checkDMC_alias_eq m a o path args kws line col cl cc al ac ho hma.1 hma.2

/-- Witness for C4: the invariance applied to `os.system` with alias `o`. -/
theorem sec_dangerous_call_alias_invariance_witness :
    checkDangerousModuleCalls "w.py" (aliasInsert [] "o" "os")
        (Expr.attrE (Expr.name "o" Ctx.load 1 0) "system" 1 0) [] [] 1 0 =
      checkDangerousModuleCalls "w.py" (aliasInsert [] "os" "os")
        (Expr.attrE (Expr.name "os" Ctx.load 1 0) "system" 1 0) [] [] 1 0 :=
  sec_dangerous_call_alias_invariance.2.2 "os" "system"
    ("SEC005", "Use of os.system() allows shell injection") (by decide)
    "o" "w.py" [] [] 1 0 1 0 1 0 (by decide)

/-- Claim C8: a call resolved to `yaml.load` produces the single SEC009
WARNING if and only if it has no `Loader` keyword argument and fewer than
two positional arguments; the presence of either suppresses the finding
regardless of the value passed. -/
theorem sec009_loader_or_second_arg_suppresses :
    ∀ (path mn : String) (aliases : AliasMap) (args : List Expr)
      (kws : List Kw) (line col cl cc al ac : Nat),
      '.' ∉ mn.data →
      aliasResolve aliases mn = "yaml" →
      checkDangerousModuleCalls path aliases
          (Expr.attrE (Expr.name mn Ctx.load al ac) "load" cl cc)
          args kws line col =
        (if (∃ k ∈ kws, k.argName = some "Loader") ∨ 2 ≤ args.length then []
         else
           [secFinding path "yaml.load() without SafeLoader can execute arbitrary code"
             Severity.warning line col "SEC009"
             (some "See https://owasp.org for secure alternatives")]) := by
  intro path mn aliases args kws line col cl cc al ac hdot hres
  simp only [checkDangerousModuleCalls, resolveCallName]
  rw [pySplit_dot mn "load" hdot (by decide)]
  simp only [hres]
  by_cases hc : (∃ k ∈ kws, k.argName = some "Loader") ∨ 2 ≤ args.length
  · rw [if_pos hc]
    have hb : (kws.any (fun k => k.argName == some "Loader") ||
        decide (args.length ≥ 2)) = true := by
      rcases hc with h | h
      · obtain ⟨k, hk, ha⟩ := h
        have hany : kws.any (fun k => k.argName == some "Loader") = true :=
          List.any_eq_true.mpr ⟨k, hk, by simp [ha]⟩
        simp [hany]
      · simp [h]
    simp only [hb, Bool.and_true, Bool.true_and]
    split <;> rfl
  · rw [if_neg hc]
    push_neg at hc
    have hb : (kws.any (fun k => k.argName == some "Loader") ||
        decide (args.length ≥ 2)) = false := by
      simp only [Bool.or_eq_false_iff]
      constructor
      · simp only [List.any_eq_false]
        intro k hk
        simp [hc.1 k hk]
      · simpa using hc.2
    simp only [hb, Bool.and_false]
    rfl

/-- Witness for C8: with the alias `y` bound to `yaml`, a `y.load(...)`
call with no `Loader` keyword and no second positional argument emits the
SEC009 finding. -/
theorem sec009_loader_or_second_arg_suppresses_witness :
    checkDangerousModuleCalls "w.py" [("y", "yaml")]
        (Expr.attrE (Expr.name "y" Ctx.load 1 0) "load" 1 0) [] [] 1 0 =
      [secFinding "w.py" "yaml.load() without SafeLoader can execute arbitrary code"
        Severity.warning 1 0 "SEC009"
        (some "See https://owasp.org for secure alternatives")] := by
  have h := sec009_loader_or_second_arg_suppresses "w.py" "y" [("y", "yaml")]
    [] [] 1 0 1 0 1 0 (by decide) rfl
  simpa using h

/-- The module `PASSWORD = ""` (an empty-string secret assignment). -/
def emptyPasswordModule : List Stmt :=
  [Stmt.assign [Expr.name "PASSWORD" Ctx.store 1 0]
    (Expr.constE (Const.strV "") 1 11) 1 0]

/-- Claim C6: `_check_hardcoded_secret` emits its single SEC003 WARNING
exactly when the target name case-insensitively contains one of the nine
secret words and the assigned value is a non-empty string-literal
constant; in particular `SecurityPass.analyze` on a file whose whole
content is `PASSWORD = ""` returns zero findings. -/
theorem sec003_nonempty_string_secret_iff :
    (∀ (path : String) (lines : List String),
      SecurityPass.analyze path
        (FileAccess.found ⟨lines, ParseOutcome.parsed emptyPasswordModule⟩) =
        Except.ok ⟨[]⟩) ∧
    (∀ (path name : String) (value : Expr) (line col : Nat),
      checkHardcodedSecret path name value line col ≠ [] ↔
        ((∃ w ∈ secretWords, w.data <:+: (pyLower name).data) ∧
          ∃ s vl vc, value = Expr.constE (Const.strV s) vl vc ∧ s ≠ "")) ∧
    (∀ (path name : String) (value : Expr) (line col : Nat),
      (checkHardcodedSecret path name value line col).length ≤ 1 ∧
      ∀ f ∈ checkHardcodedSecret path name value line col,
        f.rule_id = "SEC003" ∧ f.severity = Severity.warning) := by
  refine ⟨fun path lines => rfl, ?_, ?_⟩
  · intro path name value line col
    have hiff : (secretNameSearch name = true) ↔
        ∃ w ∈ secretWords, w.data <:+: (pyLower name).data := by
      simp [secretNameSearch, List.any_eq_true]
    by_cases hs : secretNameSearch name = true
    · simp only [checkHardcodedSecret, hs, Bool.not_true, Bool.false_eq_true,
        if_false]
      rw [iff_true_intro (hiff.mp hs), true_and]
      cases value with
      | constE c vl vc =>
        cases c with
        | strV s =>
          by_cases hse : s = ""
          · subst hse; simp
          · simp [hse]
        | noneV => simp
        | boolV b => simp
        | intV n => simp
        | ellipsisV => simp
      | _ => simp
    · have hsf : secretNameSearch name = false := by simpa using hs
      simp only [checkHardcodedSecret, hsf, Bool.not_false, if_true]
      simp only [ne_eq, not_true_eq_false, false_iff, not_and]
      intro hw
      exact absurd (hiff.mpr hw) hs
  · intro path name value line col
    constructor
    · simp only [checkHardcodedSecret]
      split
      · simp
      · cases value with
        | constE c vl vc =>
          cases c <;> simp
          split <;> simp
        | _ => simp
    · intro f hf
      simp only [checkHardcodedSecret] at hf
      split at hf
      · simp at hf
      · cases value with
        | constE c vl vc =>
          cases c with
          | strV s =>
            rcases hst : (s != "") with _ | _
            · simp [hst] at hf
            · simp [hst, secFinding] at hf
              subst hf
              exact ⟨rfl, rfl⟩
          | noneV => simp at hf
          | boolV b => simp at hf
          | intV n => simp at hf
          | ellipsisV => simp at hf
        | _ => simp at hf

/-- Witness for C6: `PASSWORD = "x"` fires SEC003. -/
theorem sec003_nonempty_string_secret_iff_witness :
    checkHardcodedSecret "w.py" "PASSWORD"
      (Expr.constE (Const.strV "x") 1 11) 1 0 ≠ [] :=
  (sec003_nonempty_string_secret_iff.2.1 "w.py" "PASSWORD"
    (Expr.constE (Const.strV "x") 1 11) 1 0).mpr
    ⟨by decide, "x", 1, 11, rfl, by decide⟩

/-- The module `data = [1,2,3]` / `smallest = sorted(data)[0]`. -/
def sortedZeroModule : List Stmt :=
  [Stmt.assign [Expr.name "data" Ctx.store 1 0]
     (Expr.listE [Expr.constE (Const.intV 1) 1 8, Expr.constE (Const.intV 2) 1 10,
        Expr.constE (Const.intV 3) 1 12] 1 7) 1 0,
   Stmt.assign [Expr.name "smallest" Ctx.store 2 0]
     (Expr.subscript
       (Expr.call (Expr.name "sorted" Ctx.load 2 11)
         [Expr.name "data" Ctx.load 2 18] [] 2 11)
       (Expr.constE (Const.intV 0) 2 24) 2 11) 2 0]

/-- Claim C7: subscripting a `sorted(...)` call emits one PERF006 WARNING
at index 0 (suggestion containing "min") and at index -1 — written as an
integer literal or as unary minus applied to the literal 1 — (suggestion
containing "max"); the concrete two-line file yields exactly the one
"min" finding. -/
theorem perf006_sorted_subscript_min_max :
    (∀ (path : String) (lines : List String),
      PerformancePass.analyze path
        (FileAccess.found ⟨lines, ParseOutcome.parsed sortedZeroModule⟩) =
        Except.ok ⟨[perfFinding path "sorted(...)[0] is O(n log n) — use min() for O(n)"
          Severity.warning 2 11 "PERF006" (some "Replace sorted(x)[0] with min(x)")]⟩) ∧
    ("min".data <:+: "Replace sorted(x)[0] with min(x)".data) ∧
    ("max".data <:+: "Replace sorted(x)[-1] with max(x)".data) ∧
    (∀ (path : String) (sargs : List Expr) (skws : List Kw)
       (line col cl cc sl sc : Nat),
      sortedSubscriptCheck path
          (Expr.call (Expr.name "sorted" Ctx.load cl cc) sargs skws cl cc)
          (Expr.constE (Const.intV 0) sl sc) line col =
        [perfFinding path "sorted(...)[0] is O(n log n) — use min() for O(n)"
          Severity.warning line col "PERF006"
          (some "Replace sorted(x)[0] with min(x)")] ∧
      sortedSubscriptCheck path
          (Expr.call (Expr.name "sorted" Ctx.load cl cc) sargs skws cl cc)
          (Expr.constE (Const.intV (-1)) sl sc) line col =
        [perfFinding path "sorted(...)[-1] is O(n log n) — use max() for O(n)"
          Severity.warning line col "PERF006"
          (some "Replace sorted(x)[-1] with max(x)")] ∧
      sortedSubscriptCheck path
          (Expr.call (Expr.name "sorted" Ctx.load cl cc) sargs skws cl cc)
          (Expr.unary UnaryOpK.usub (Expr.constE (Const.intV 1) sl sc) sl sc)
          line col =
        [perfFinding path "sorted(...)[-1] is O(n log n) — use max() for O(n)"
          Severity.warning line col "PERF006"
          (some "Replace sorted(x)[-1] with max(x)")]) :=
  ⟨fun path lines => rfl, by decide, by decide,
    fun path sargs skws line col cl cc sl sc => ⟨rfl, rfl, rfl⟩⟩

/-- An ASCII Python identifier: nonempty, first character an ASCII letter
or underscore, the rest ASCII letters, digits or underscores. -/
def isPyAsciiIdent (s : String) : Bool :=
  match s.data with
  | [] => false
  | c :: cs =>
    (c.isAlpha || c == '_') &&
      cs.all (fun d => d.isAlpha || d.isDigit || d == '_')

/-- No finding in the list carries rule STY014. -/
def noSty14 (l : List Finding) : Prop := ∀ f ∈ l, f.rule_id ≠ "STY014"

/-- The empty list is STY014-free. -/
theorem noSty14_nil : noSty14 [] := by simp [noSty14]

/-- A concatenation is STY014-free iff both halves are. -/
theorem noSty14_append {a b : List Finding} :
    noSty14 (a ++ b) ↔ noSty14 a ∧ noSty14 b := by
  simp [noSty14, List.mem_append, or_imp, forall_and]

/-- A singleton with another rule id is STY014-free. -/
theorem noSty14_singleton {f : Finding} (h : f.rule_id ≠ "STY014") :
    noSty14 [f] := by simp [noSty14, h]

/-- A conditional singleton with another rule id is STY014-free. -/
theorem noSty14_if {c : Prop} [Decidable c] {f : Finding}
    (h : f.rule_id ≠ "STY014") : noSty14 (if c then [f] else []) := by
  split
  · exact noSty14_singleton h
  · exact noSty14_nil

/-- A list matching the core pattern matches the anchored pattern with
optional leading underscores. -/
theorem upToTwoUnderscores_of_core (core : List Char → Bool) (cs : List Char)
    (h : core cs = true) : upToTwoUnderscores core cs = true := by
  have h2 : ∀ b : Bool, (core cs || b) = true := by
    intro b
    rw [h]
    rfl
  exact h2 _

/-- An alphabetic character that is not lowercase is uppercase. -/
theorem upper_of_alpha_not_lower (c : Char) (ha : c.isAlpha = true)
    (hl : c.isLower = false) : c.isUpper = true := by
  simp [Char.isAlpha, hl] at ha
  exact ha

/-- Claim C10, part 1 core: an ASCII identifier not starting with an
underscore that satisfies the STY014 trigger already matches
`UPPER_CASE_PATTERN`. -/
theorem sty14_trigger_implies_upper (name : String)
    (hid : isPyAsciiIdent name = true)
    (hund : pyStartsWith name "_" = false)
    (htr : sty14Trigger name = true) : is_upper_case name = true := by
  rcases hdata : name.data with _ | ⟨c, cs⟩
  · simp [isPyAsciiIdent, hdata] at hid
  · simp only [isPyAsciiIdent, hdata, Bool.and_eq_true, List.all_eq_true,
      Bool.or_eq_true, beq_iff_eq] at hid
    obtain ⟨hc1, hcs⟩ := hid
    have hpre : pyStartsWith name "_" = ('_' == c && List.isPrefixOf [] cs) := by
      rw [pyStartsWith, hdata]
      rfl
    have hcne : c ≠ '_' := by
      intro he
      rw [hpre, he] at hund
      simp [List.isPrefixOf] at hund
    have hcalpha : c.isAlpha = true := by
      rcases hc1 with h | h
      · exact h
      · exact absurd h.symm (by exact fun hx => hcne hx.symm)
    have hupper : ∀ d ∈ name.data, d.isAlpha = true → d.isUpper = true := by
      simp only [sty14Trigger, Bool.or_eq_true, Bool.and_eq_true] at htr
      rcases htr with h | ⟨h, -⟩
      · simp only [pyIsUpper, Bool.and_eq_true, List.all_eq_true] at h
        intro d hd hda
        have h2 := h.2 d hd
        simpa [hda, isUpperAZ] using h2
      · simp only [pyUpperEqSelf, List.all_eq_true] at h
        intro d hd hda
        exact upper_of_alpha_not_lower d hda (by simpa using h d hd)
    have hcore : upperCore name.data = true := by
      rw [hdata]
      simp only [upperCore, Bool.and_eq_true, List.all_eq_true]
      refine ⟨?_, ?_⟩
      · have hcu := hupper c (show c ∈ name.data by
          rw [hdata]; exact List.mem_cons_self c cs) hcalpha
        simpa [isUpperAZ] using hcu
      · intro d hd
        by_cases hda : d.isAlpha = true
        · have hdu := hupper d (show d ∈ name.data by
            rw [hdata]; exact List.mem_cons_of_mem c hd) hda
          simp [isUpperAZ, hdu]
        · rcases hcs d hd with (h | h) | h
          · exact absurd h hda
          · simp [isUpperAZ, isDigit09, h]
          · simp [isUpperAZ, isDigit09, h]
    exact upToTwoUnderscores_of_core upperCore name.data hcore

/-- The name-binding check never emits STY014 for an ASCII identifier. -/
theorem styleNameFindings_no14 (path id : String) (ctx : Ctx) (line col : Nat)
    (h : isPyAsciiIdent id = true) :
    noSty14 (styleNameFindings path id ctx line col) := by
  cases ctx with
  | store =>
    by_cases hu : pyStartsWith id "_" = true
    · simp [styleNameFindings, hu, noSty14_nil]
    · have hu2 : pyStartsWith id "_" = false := by simpa using hu
      by_cases htr : sty14Trigger id = true
      · have hupper := sty14_trigger_implies_upper id h hu2 htr
        simp [styleNameFindings, hu2, htr, hupper, noSty14_nil]
      · have htr2 : sty14Trigger id = false := by simpa using htr
        simp only [styleNameFindings, hu2, htr2, Bool.false_eq_true, if_false]
        split
        · exact noSty14_if (by simp [styFinding])
        · exact noSty14_nil
  | load => simp [styleNameFindings, noSty14_nil]
  | del => simp [styleNameFindings, noSty14_nil]

/-- The function-name checks emit only STY011/STY012. -/
theorem checkFunctionName_no14 (path nm : String) (line col : Nat) :
    noSty14 (checkFunctionName path nm line col) := by
  unfold checkFunctionName
  split
  · exact noSty14_nil
  · rw [noSty14_append]
    exact ⟨noSty14_if (by simp [styFinding]), noSty14_if (by simp [styFinding])⟩

/-- The parameter-name check emits only STY013. -/
theorem checkArgumentNames_no14 (path : String) (fargs : FArgs) :
    noSty14 (checkArgumentNames path fargs) := by
  rcases fargs with ⟨pos, args, kwonly, d, kd⟩
  simp only [checkArgumentNames, noSty14, List.mem_flatMap]
  rintro f ⟨a, -, hf⟩
  split at hf
  · simp at hf
  · split at hf
    · simp at hf
      subst hf
      simp [styFinding]
    · simp at hf

/-- The class-name check emits only STY010. -/
theorem checkClassName_no14 (path nm : String) (line col : Nat) :
    noSty14 (checkClassName path nm line col) := by
  unfold checkClassName
  exact noSty14_if (by simp [styFinding])

/-- The line-oriented scan emits only STY001/STY002/STY003. -/
theorem lineScan_no14 (path : String) :
    ∀ (lines : List String) (n b : Nat), noSty14 (lineScan path n b lines) := by
  intro lines
  induction lines with
  | nil => intro n b; exact noSty14_nil
  | cons line rest ih =>
    intro n b
    simp only [lineScan, noSty14_append]
    refine ⟨⟨?_, ?_⟩, ?_, ?_⟩
    · exact noSty14_if (by simp [styFinding])
    · exact noSty14_if (by simp [styFinding])
    · exact noSty14_if (by simp [styFinding])
    · exact ih _ _

/-- `_check_line_issues` emits only STY001-STY004. -/
theorem checkLineIssues_no14 (path : String) (lines : List String) :
    noSty14 (checkLineIssues path lines) := by
  unfold checkLineIssues
  rw [noSty14_append]
  refine ⟨lineScan_no14 path lines 1 0, ?_⟩
  split
  · exact noSty14_if (by simp [styFinding])
  · exact noSty14_nil

/-- The import-order loop emits only STY005. -/
theorem importOrderScan_no14 (path : String) :
    ∀ (l : List (Nat × String × String)) (current : Nat),
      noSty14 (importOrderScan path current l) := by
  intro l
  induction l with
  | nil => intro current; exact noSty14_nil
  | cons rec0 rest ih =>
    intro current
    rcases rec0 with ⟨line, itype, module⟩
    simp only [importOrderScan]
    split
    · exact ih current
    · split
      · rw [noSty14_append]
        exact ⟨noSty14_singleton (by simp [styFinding]), ih current⟩
      · exact ih _

/-- `_check_imports` emits only STY005. -/
theorem checkImports_no14 (path : String) (body : List Stmt) :
    noSty14 (checkImports path body) := by
  unfold checkImports
  exact importOrderScan_no14 path _ 0

mutual

/-- Every assignment-target identifier (store-context `Name`) in the
expression is an ASCII identifier. -/
def asciiStoreExpr : Expr → Bool
  | .name id ctx _ _ => ctx != Ctx.store || isPyAsciiIdent id
  | .constE _ _ _ => true
  | .call f args kws _ _ =>
    asciiStoreExpr f && asciiStoreExprs args && asciiStoreKws kws
  | .attrE v _ _ _ => asciiStoreExpr v
  | .unary _ o _ _ => asciiStoreExpr o
  | .binOp l _ r _ _ => asciiStoreExpr l && asciiStoreExpr r
  | .compare left _ comps _ _ => asciiStoreExpr left && asciiStoreExprs comps
  | .listE elts _ _ => asciiStoreExprs elts
  | .tupleE elts _ _ => asciiStoreExprs elts
  | .dictE keys values _ _ => asciiStoreOptExprs keys && asciiStoreExprs values
  | .setE elts _ _ => asciiStoreExprs elts
  | .subscript v s _ _ => asciiStoreExpr v && asciiStoreExpr s
  | .joinedStr vs _ _ => asciiStoreExprs vs
  | .formattedValue v _ _ => asciiStoreExpr v

/-- List version of `asciiStoreExpr`. -/
def asciiStoreExprs : List Expr → Bool
  | [] => true
  | e :: es => asciiStoreExpr e && asciiStoreExprs es

/-- Optional version of `asciiStoreExpr`. -/
def asciiStoreOptExpr : Option Expr → Bool
  | none => true
  | some e => asciiStoreExpr e

/-- List-of-optionals version of `asciiStoreExpr`. -/
def asciiStoreOptExprs : List (Option Expr) → Bool
  | [] => true
  | e :: es => asciiStoreOptExpr e && asciiStoreOptExprs es

/-- Keyword-list version of `asciiStoreExpr`. -/
def asciiStoreKws : List Kw → Bool
  | [] => true
  | .mk _ v :: ks => asciiStoreExpr v && asciiStoreKws ks

/-- Defaults of an `ast.arguments` node. -/
def asciiStoreFArgs : FArgs → Bool
  | .mk _ _ _ defaults kwDefaults =>
    asciiStoreOptExprs kwDefaults && asciiStoreExprs defaults

/-- Every assignment-target identifier in the statement is an ASCII
identifier. -/
def asciiStoreStmt : Stmt → Bool
  | .funcDef _ fargs body dec _ _ =>
    asciiStoreFArgs fargs && asciiStoreStmts body && asciiStoreExprs dec
  | .asyncFuncDef _ fargs body dec _ _ =>
    asciiStoreFArgs fargs && asciiStoreStmts body && asciiStoreExprs dec
  | .classDef _ bases body dec _ _ =>
    asciiStoreExprs bases && asciiStoreStmts body && asciiStoreExprs dec
  | .ret v _ _ => asciiStoreOptExpr v
  | .assign targets value _ _ =>
    asciiStoreExprs targets && asciiStoreExpr value
  | .annAssign t ann v _ _ =>
    asciiStoreExpr t && asciiStoreExpr ann && asciiStoreOptExpr v
  | .augAssign t _ v _ _ => asciiStoreExpr t && asciiStoreExpr v
  | .forS t it body orelse _ _ =>
    asciiStoreExpr t && asciiStoreExpr it &&
      asciiStoreStmts body && asciiStoreStmts orelse
  | .whileS test body orelse _ _ =>
    asciiStoreExpr test && asciiStoreStmts body && asciiStoreStmts orelse
  | .ifS test body orelse _ _ =>
    asciiStoreExpr test && asciiStoreStmts body && asciiStoreStmts orelse
  | .tryS body handlers orelse finalBody _ _ =>
    asciiStoreStmts body && asciiStoreHandlers handlers &&
      asciiStoreStmts orelse && asciiStoreStmts finalBody
  | .raiseS e _ _ => asciiStoreOptExpr e
  | .assertS test msg _ _ => asciiStoreExpr test && asciiStoreOptExpr msg
  | .importS _ _ _ => true
  | .importFrom _ _ _ _ => true
  | .exprS v _ _ => asciiStoreExpr v
  | .passS _ _ => true
  | .breakS _ _ => true
  | .continueS _ _ => true

/-- Statement-list version of `asciiStoreStmt`. -/
def asciiStoreStmts : List Stmt → Bool
  | [] => true
  | s :: ss => asciiStoreStmt s && asciiStoreStmts ss

/-- Handler-list version of `asciiStoreStmt`. -/
def asciiStoreHandlers : List Handler → Bool
  | [] => true
  | .mk type body _ _ :: hs =>
    asciiStoreOptExpr type && asciiStoreStmts body && asciiStoreHandlers hs

end

/-- The expression traversal of the style checker emits no STY014 finding
when every store-context name is an ASCII identifier. -/
theorem styleExpr_no14 (path : String) :
    ∀ e : Expr, asciiStoreExpr e = true → noSty14 (styleExpr path e) := by
  refine styleExpr.induct path
    (motive_1 := fun oe =>
      asciiStoreOptExpr oe = true → noSty14 (styleOptExpr path oe))
    (motive_2 := fun e =>
      asciiStoreExpr e = true → noSty14 (styleExpr path e))
    (motive_3 := fun es =>
      asciiStoreOptExprs es = true → noSty14 (styleOptExprs path es))
    (motive_4 := fun ks =>
      asciiStoreKws ks = true → noSty14 (styleKws path ks))
    (motive_5 := fun es =>
      asciiStoreExprs es = true → noSty14 (styleExprs path es))
    ?_ ?_ ?_ ?_ ?_ ?_ ?_ ?_ ?_ ?_ ?_ ?_ ?_ ?_ ?_ ?_ ?_ ?_ ?_ ?_ ?_ ?_
  · intro id ctx l c h
    rw [styleExpr]
    cases ctx with
    | store =>
      apply styleNameFindings_no14
      simpa [asciiStoreExpr] using h
    | load => simp [styleNameFindings, noSty14]
    | del => simp [styleNameFindings, noSty14]
  · intro c l c2 h
    rw [styleExpr]
    exact noSty14_nil
  · intro f args kws l c ihf ihargs ihkws h
    simp only [asciiStoreExpr, Bool.and_eq_true] at h
    rw [styleExpr]
    exact noSty14_append.mpr ⟨noSty14_append.mpr ⟨ihf h.1.1, ihargs h.1.2⟩,
      ihkws h.2⟩
  · intro v a l c ihv h
    simp only [asciiStoreExpr] at h
    rw [styleExpr]
    exact ihv h
  · intro op o l c iho h
    simp only [asciiStoreExpr] at h
    rw [styleExpr]
    exact iho h
  · intro l op r a b ihl ihr h
    simp only [asciiStoreExpr, Bool.and_eq_true] at h
    rw [styleExpr]
    exact noSty14_append.mpr ⟨ihl h.1, ihr h.2⟩
  · intro left ops comps l c ihl ihc h
    simp only [asciiStoreExpr, Bool.and_eq_true] at h
    rw [styleExpr]
    exact noSty14_append.mpr ⟨ihl h.1, ihc h.2⟩
  · intro elts l c ih h
    simp only [asciiStoreExpr] at h
    rw [styleExpr]
    exact ih h
  · intro elts l c ih h
    simp only [asciiStoreExpr] at h
    rw [styleExpr]
    exact ih h
  · intro keys values l c ihk ihv h
    simp only [asciiStoreExpr, Bool.and_eq_true] at h
    rw [styleExpr]
    exact noSty14_append.mpr ⟨ihk h.1, ihv h.2⟩
  · intro elts l c ih h
    simp only [asciiStoreExpr] at h
    rw [styleExpr]
    exact ih h
  · intro v s l c ihv ihs h
    simp only [asciiStoreExpr, Bool.and_eq_true] at h
    rw [styleExpr]
    exact noSty14_append.mpr ⟨ihv h.1, ihs h.2⟩
  · intro vs l c ih h
    simp only [asciiStoreExpr] at h
    rw [styleExpr]
    exact ih h
  · intro v l c ih h
    simp only [asciiStoreExpr] at h
    rw [styleExpr]
    exact ih h
  · intro h
    rw [styleExprs]
    exact noSty14_nil
  · intro e es ihe ihes h
    simp only [asciiStoreExprs, Bool.and_eq_true] at h
    rw [styleExprs]
    exact noSty14_append.mpr ⟨ihe h.1, ihes h.2⟩
  · intro h
    rw [styleKws]
    exact noSty14_nil
  · intro arg v ks ihv ihks h
    simp only [asciiStoreKws, Bool.and_eq_true] at h
    rw [styleKws]
    exact noSty14_append.mpr ⟨ihv h.1, ihks h.2⟩
  · intro h
    rw [styleOptExprs]
    exact noSty14_nil
  · intro e es ihe ihes h
    simp only [asciiStoreOptExprs, Bool.and_eq_true] at h
    rw [styleOptExprs]
    exact noSty14_append.mpr ⟨ihe h.1, ihes h.2⟩
  · intro h
    rw [styleOptExpr]
    exact noSty14_nil
  · intro val ih h
    simp only [asciiStoreOptExpr] at h
    rw [styleOptExpr]
    exact ih h

/-- List corollary of `styleExpr_no14`. -/
theorem styleExprs_no14 (path : String) :
    ∀ es : List Expr, asciiStoreExprs es = true → noSty14 (styleExprs path es) := by
  intro es
  induction es with
  | nil =>
    intro _
    rw [styleExprs]
    exact noSty14_nil
  | cons e es ih =>
    intro h
    simp only [asciiStoreExprs, Bool.and_eq_true] at h
    rw [styleExprs]
    exact noSty14_append.mpr ⟨styleExpr_no14 path e h.1, ih h.2⟩

/-- Optional-expression corollary of `styleExpr_no14`. -/
theorem styleOptExpr_no14 (path : String) :
    ∀ oe : Option Expr, asciiStoreOptExpr oe = true →
      noSty14 (styleOptExpr path oe) := by
  intro oe h
  cases oe with
  | none => rw [styleOptExpr]; exact noSty14_nil
  | some e =>
    rw [styleOptExpr]
    exact styleExpr_no14 path e (by simpa [asciiStoreOptExpr] using h)

/-- Optional-list corollary of `styleExpr_no14`. -/
theorem styleOptExprs_no14 (path : String) :
    ∀ es : List (Option Expr), asciiStoreOptExprs es = true →
      noSty14 (styleOptExprs path es) := by
  intro es
  induction es with
  | nil =>
    intro _
    rw [styleOptExprs]
    exact noSty14_nil
  | cons e es ih =>
    intro h
    simp only [asciiStoreOptExprs, Bool.and_eq_true] at h
    rw [styleOptExprs]
    exact noSty14_append.mpr ⟨styleOptExpr_no14 path e h.1, ih h.2⟩

/-- Keyword corollary of `styleExpr_no14`. -/
theorem styleKws_no14 (path : String) :
    ∀ ks : List Kw, asciiStoreKws ks = true → noSty14 (styleKws path ks) := by
  intro ks
  induction ks with
  | nil =>
    intro _
    rw [styleKws]
    exact noSty14_nil
  | cons k ks ih =>
    rcases k with ⟨arg, v⟩
    intro h
    simp only [asciiStoreKws, Bool.and_eq_true] at h
    rw [styleKws]
    exact noSty14_append.mpr ⟨styleExpr_no14 path v h.1, ih h.2⟩

/-- `ast.arguments` corollary of `styleExpr_no14`. -/
theorem styleFArgs_no14 (path : String) :
    ∀ fargs : FArgs, asciiStoreFArgs fargs = true →
      noSty14 (styleFArgs path fargs) := by
  intro fargs h
  rcases fargs with ⟨pos, args, kwonly, defaults, kwDefaults⟩
  simp only [asciiStoreFArgs, Bool.and_eq_true] at h
  rw [styleFArgs]
  exact noSty14_append.mpr ⟨styleOptExprs_no14 path kwDefaults h.1,
    styleExprs_no14 path defaults h.2⟩

/-- The statement traversal of the style checker emits no STY014 finding
when every store-context name is an ASCII identifier. -/
theorem styleStmt_no14 (path : String) :
    ∀ s : Stmt, asciiStoreStmt s = true → noSty14 (styleStmt path s) := by
  refine styleStmt.induct path
    (motive_1 := fun s =>
      asciiStoreStmt s = true → noSty14 (styleStmt path s))
    (motive_2 := fun hs =>
      asciiStoreHandlers hs = true → noSty14 (styleHandlers path hs))
    (motive_3 := fun ss =>
      asciiStoreStmts ss = true → noSty14 (styleStmts path ss))
    ?_ ?_ ?_ ?_ ?_ ?_ ?_ ?_ ?_ ?_ ?_ ?_ ?_ ?_ ?_ ?_ ?_ ?_ ?_ ?_ ?_ ?_ ?_
  · intro nm fargs body dec l c ihb h
    simp only [asciiStoreStmt, Bool.and_eq_true] at h
    rw [styleStmt]
    exact noSty14_append.mpr ⟨noSty14_append.mpr ⟨noSty14_append.mpr
      ⟨noSty14_append.mpr ⟨checkFunctionName_no14 path nm l c,
        checkArgumentNames_no14 path fargs⟩,
        styleFArgs_no14 path fargs h.1.1⟩, ihb h.1.2⟩,
      styleExprs_no14 path dec h.2⟩
  · intro nm fargs body dec l c ihb h
    simp only [asciiStoreStmt, Bool.and_eq_true] at h
    rw [styleStmt]
    exact noSty14_append.mpr ⟨noSty14_append.mpr ⟨noSty14_append.mpr
      ⟨noSty14_append.mpr ⟨checkFunctionName_no14 path nm l c,
        checkArgumentNames_no14 path fargs⟩,
        styleFArgs_no14 path fargs h.1.1⟩, ihb h.1.2⟩,
      styleExprs_no14 path dec h.2⟩
  · intro nm bases body dec l c ihb h
    simp only [asciiStoreStmt, Bool.and_eq_true] at h
    rw [styleStmt]
    exact noSty14_append.mpr ⟨noSty14_append.mpr ⟨noSty14_append.mpr
      ⟨checkClassName_no14 path nm l c, styleExprs_no14 path bases h.1.1⟩,
      ihb h.1.2⟩, styleExprs_no14 path dec h.2⟩
  · intro v l c h
    simp only [asciiStoreStmt] at h
    rw [styleStmt]
    exact styleOptExpr_no14 path v h
  · intro targets value l c h
    simp only [asciiStoreStmt, Bool.and_eq_true] at h
    rw [styleStmt]
    exact noSty14_append.mpr ⟨styleExprs_no14 path targets h.1,
      styleExpr_no14 path value h.2⟩
  · intro t ann v l c h
    simp only [asciiStoreStmt, Bool.and_eq_true] at h
    rw [styleStmt]
    exact noSty14_append.mpr ⟨noSty14_append.mpr ⟨styleExpr_no14 path t h.1.1,
      styleExpr_no14 path ann h.1.2⟩, styleOptExpr_no14 path v h.2⟩
  · intro t op v l c h
    simp only [asciiStoreStmt, Bool.and_eq_true] at h
    rw [styleStmt]
    exact noSty14_append.mpr ⟨styleExpr_no14 path t h.1,
      styleExpr_no14 path v h.2⟩
  · intro t it body orelse l c ihb iho h
    simp only [asciiStoreStmt, Bool.and_eq_true] at h
    rw [styleStmt]
    exact noSty14_append.mpr ⟨noSty14_append.mpr ⟨noSty14_append.mpr
      ⟨styleExpr_no14 path t h.1.1.1, styleExpr_no14 path it h.1.1.2⟩,
      ihb h.1.2⟩, iho h.2⟩
  · intro test body orelse l c ihb iho h
    simp only [asciiStoreStmt, Bool.and_eq_true] at h
    rw [styleStmt]
    exact noSty14_append.mpr ⟨noSty14_append.mpr
      ⟨styleExpr_no14 path test h.1.1, ihb h.1.2⟩, iho h.2⟩
  · intro test body orelse l c ihb iho h
    simp only [asciiStoreStmt, Bool.and_eq_true] at h
    rw [styleStmt]
    exact noSty14_append.mpr ⟨noSty14_append.mpr
      ⟨styleExpr_no14 path test h.1.1, ihb h.1.2⟩, iho h.2⟩
  · intro body handlers orelse finalBody l c ihb ihh iho ihf h
    simp only [asciiStoreStmt, Bool.and_eq_true] at h
    rw [styleStmt]
    exact noSty14_append.mpr ⟨noSty14_append.mpr ⟨noSty14_append.mpr
      ⟨ihb h.1.1.1, ihh h.1.1.2⟩, iho h.1.2⟩, ihf h.2⟩
  · intro e l c h
    simp only [asciiStoreStmt] at h
    rw [styleStmt]
    exact styleOptExpr_no14 path e h
  · intro test msg l c h
    simp only [asciiStoreStmt, Bool.and_eq_true] at h
    rw [styleStmt]
    exact noSty14_append.mpr ⟨styleExpr_no14 path test h.1,
      styleOptExpr_no14 path msg h.2⟩
  · intro names l c h
    rw [styleStmt]
    exact noSty14_nil
  · intro module names l c h
    rw [styleStmt]
    exact noSty14_nil
  · intro v l c h
    simp only [asciiStoreStmt] at h
    rw [styleStmt]
    exact styleExpr_no14 path v h
  · intro l c h
    rw [styleStmt]
    exact noSty14_nil
  · intro l c h
    rw [styleStmt]
    exact noSty14_nil
  · intro l c h
    rw [styleStmt]
    exact noSty14_nil
  · intro h
    rw [styleStmts]
    exact noSty14_nil
  · intro s ss ihs ihss h
    simp only [asciiStoreStmts, Bool.and_eq_true] at h
    rw [styleStmts]
    exact noSty14_append.mpr ⟨ihs h.1, ihss h.2⟩
  · intro h
    rw [styleHandlers]
    exact noSty14_nil
  · intro type body l c hs ihb ihhs h
    simp only [asciiStoreHandlers, Bool.and_eq_true] at h
    rw [styleHandlers]
    exact noSty14_append.mpr ⟨noSty14_append.mpr
      ⟨styleOptExpr_no14 path type h.1.1, ihb h.1.2⟩, ihhs h.2⟩

/-- Statement-list corollary of `styleStmt_no14`. -/
theorem styleStmts_no14 (path : String) :
    ∀ ss : List Stmt, asciiStoreStmts ss = true →
      noSty14 (styleStmts path ss) := by
  intro ss
  induction ss with
  | nil =>
    intro _
    rw [styleStmts]
    exact noSty14_nil
  | cons s ss ih =>
    intro h
    simp only [asciiStoreStmts, Bool.and_eq_true] at h
    rw [styleStmts]
    exact noSty14_append.mpr ⟨styleStmt_no14 path s h.1, ih h.2⟩

/-- Claim C10: for every ASCII assignment-target identifier not starting
with an underscore, satisfying the STY014 trigger (fully uppercase, or
equal to its own uppercasing and containing an underscore) implies
matching `UPPER_CASE_PATTERN`; hence the STY014 violation branch is
unreachable and `StylePass.analyze` emits no STY014 finding on any
parsed source whose assignment-target identifiers are all ASCII. -/
theorem sty014_unreachable_on_ascii_sources :
    (∀ name : String, isPyAsciiIdent name = true →
      pyStartsWith name "_" = false → sty14Trigger name = true →
      is_upper_case name = true) ∧
    (∀ (path : String) (lines : List String) (body : List Stmt),
      asciiStoreStmts body = true →
      ∃ fc, StylePass.analyze path
          (FileAccess.found ⟨lines, ParseOutcome.parsed body⟩) = Except.ok fc ∧
        ∀ f ∈ fc.findings, f.rule_id ≠ "STY014") := by
  refine ⟨sty14_trigger_implies_upper, ?_⟩
  intro path lines body h
  refine ⟨_, rfl, ?_⟩
  exact noSty14_append.mpr ⟨checkLineIssues_no14 path lines,
    noSty14_append.mpr ⟨checkImports_no14 path body,
      styleStmts_no14 path body h⟩⟩

/-- Witness for C10: the trigger implication at `FOO_BAR`, and a concrete
one-assignment module with an uppercase ASCII target analyzed without any
STY014 finding. -/
theorem sty014_unreachable_on_ascii_sources_witness :
    is_upper_case "FOO_BAR" = true ∧
    ∃ fc, StylePass.analyze "w.py"
        (FileAccess.found ⟨[], ParseOutcome.parsed
          [Stmt.assign [Expr.name "FOO_BAR" Ctx.store 1 0]
            (Expr.constE (Const.intV 1) 1 10) 1 0]⟩) = Except.ok fc ∧
      ∀ f ∈ fc.findings, f.rule_id ≠ "STY014" :=
  ⟨sty014_unreachable_on_ascii_sources.1 "FOO_BAR" (by decide) (by decide)
      (by decide),
    sty014_unreachable_on_ascii_sources.2 "w.py" []
      [Stmt.assign [Expr.name "FOO_BAR" Ctx.store 1 0]
        (Expr.constE (Const.intV 1) 1 10) 1 0] (by decide)⟩
